import Mathlib

/-!
Verification development for the elementor-to-react-bricks conversion pipeline.

The TypeScript sources under `src/src/utils/` (elementorParser.ts,
reactBricksMapper.ts, tailwindMapper.ts, codeGenerator.ts — the complete
code generator being the file also present as `src/unnamed/part_002`) are
shallowly embedded below.  JavaScript strings become `String` / `List Char`,
JavaScript numbers become `Option ℚ` (with `none` playing the role of `NaN`,
whose comparisons are all false), fallible external collaborators (fetch,
DOM decoding) become explicit inputs, and every function is a computable
total Lean definition mirroring the source line by line.
-/

set_option maxRecDepth 8000

/-! ## JavaScript string primitives -/

/-- Characters of a string, the list model used throughout. -/
def strOf (l : List Char) : String := String.mk l

/-- Prefix test on character lists. -/
def isPrefixChars : List Char → List Char → Bool
  | [], _ => true
  | _ :: _, [] => false
  | p :: ps, c :: cs => p == c && isPrefixChars ps cs

/-- Substring test on character lists (JS `String.prototype.includes`). -/
def containsChars (pat : List Char) : List Char → Bool
  | [] => isPrefixChars pat []
  | l@(_ :: t) => isPrefixChars pat l || containsChars pat t

/-- JS `s.includes(pat)`. -/
def jsIncludes (s pat : String) : Bool := containsChars pat.data s.data

/-- JS `s.startsWith(pat)`. -/
def jsStartsWith (s pat : String) : Bool := isPrefixChars pat.data s.data

/-- JS whitespace for `trim`, `\s` in regexes and class-list splitting. -/
def isJsWs (c : Char) : Bool :=
  c == ' ' || c == '\t' || c == '\n' || c == '\r' || c == '\x0b' || c == '\x0c'

/-- Characters of the trimmed string. -/
def trimChars (l : List Char) : List Char :=
  ((l.dropWhile isJsWs).reverse.dropWhile isJsWs).reverse

/-- JS `s.trim()`. -/
def jsTrim (s : String) : String := strOf (trimChars s.data)

/-- JS `s.split(sep)` for a one-character separator: keeps empty pieces,
and the empty string splits to `[""]`. -/
def jsSplitChar (sep : Char) : List Char → List (List Char)
  | [] => [[]]
  | c :: t =>
    if c == sep then [] :: jsSplitChar sep t
    else
      match jsSplitChar sep t with
      | [] => [[c]]
      | h :: r => (c :: h) :: r

/-- JS `s.replace(pat, repl)` for plain-string patterns: first occurrence only. -/
def replaceFirstChars (pat repl : List Char) : List Char → List Char
  | [] => if pat.isEmpty then repl else []
  | l@(c :: t) =>
    if isPrefixChars pat l then repl ++ l.drop pat.length
    else c :: replaceFirstChars pat repl t

/-- String wrapper for `replaceFirstChars`. -/
def jsReplaceFirst (s pat repl : String) : String :=
  strOf (replaceFirstChars pat.data repl.data s.data)

/-- JS `s.replace(/a/g, b)` for one-character pattern and replacement. -/
def replaceAllChar (a b : Char) (s : String) : String :=
  strOf (s.data.map (fun c => if c == a then b else c))

/-- JS `s.split(re)` for a character-class-plus regex (e.g. `/\s+/`,
`/[-_\s.]+/`): separator runs are collapsed, and a leading or trailing
separator run yields an empty piece, exactly as in JavaScript.  `inSep`
records that the previous character belonged to a separator run. -/
def splitRunsGo (p : Char → Bool) : Bool → List Char → List Char → List (List Char)
  | _, acc, [] => [acc.reverse]
  | inSep, acc, c :: t =>
    if p c then
      if inSep then splitRunsGo p true acc t
      else acc.reverse :: splitRunsGo p true [] t
    else splitRunsGo p false (c :: acc) t

/-- Run-collapsing split, string wrapper. -/
def jsSplitRuns (p : Char → Bool) (s : String) : List String :=
  (splitRunsGo p false [] s.data).map strOf

/-- JS `word.charAt(0).toUpperCase() + word.slice(1)`. -/
def capFirst (w : String) : String :=
  match w.data with
  | [] => ""
  | c :: t => strOf (c.toUpper :: t)

/-- One word of `pascalCase`: first char upper, rest lower. -/
def pascalWord (w : String) : String :=
  match w.data with
  | [] => ""
  | c :: t => strOf (c.toUpper :: t.map Char.toLower)

/-- Separator class of the code generator's `pascalCase` split `/[-_\s.]+/`. -/
def isPascalSep (c : Char) : Bool := c == '-' || c == '_' || isJsWs c || c == '.'

/-- The code generator's `pascalCase` (part_002 lines 1048-1053):
split on `/[-_\s.]+/`, capitalize each word, lowercase the rest, join. -/
def pascalCase (s : String) : String :=
  String.join ((jsSplitRuns isPascalSep s).map pascalWord)

/-! ## JavaScript number primitives

JS numbers are modelled as `Option ℚ`, with `none` standing for `NaN`;
all comparisons against `none` are false, as for `NaN`. -/

/-- Accumulate leading decimal digits; returns value, digit count, rest. -/
def parseDigitsAux : Nat → Nat → List Char → Nat × Nat × List Char
  | acc, n, [] => (acc, n, [])
  | acc, n, c :: t =>
    if c.isDigit then parseDigitsAux (acc * 10 + (c.toNat - 48)) (n + 1) t
    else (acc, n, c :: t)

/-- Optional leading sign. -/
def parseSign : List Char → ℚ × List Char
  | '-' :: t => (-1, t)
  | '+' :: t => (1, t)
  | l => (1, l)

/-- Core of JS `parseFloat`: leading whitespace, optional sign, digits with
optional fraction and exponent; `none` when no digits at all (`NaN`).
Also returns the unconsumed rest (for modelling full-string `Number()`). -/
def jsParseFloatCore (l : List Char) : Option ℚ × List Char :=
  let l1 := l.dropWhile isJsWs
  let sg := (parseSign l1).fst
  let l2 := (parseSign l1).snd
  let ipr := parseDigitsAux 0 0 l2
  let ip := ipr.fst
  let ic := ipr.snd.fst
  let l3 := ipr.snd.snd
  let fpr :=
    match l3 with
    | '.' :: t => parseDigitsAux 0 0 t
    | _ => (0, 0, l3)
  let fp := fpr.fst
  let fc := fpr.snd.fst
  let l4 := fpr.snd.snd
  if ic == 0 && fc == 0 then (none, l)
  else
    let base : ℚ := sg * ((ip : ℚ) + (fp : ℚ) / ((10 : ℚ) ^ fc))
    match l4 with
    | e :: t =>
      if e == 'e' || e == 'E' then
        let es := (parseSign t).fst
        let t1 := (parseSign t).snd
        let epr := parseDigitsAux 0 0 t1
        if epr.snd.fst == 0 then (some base, l4)
        else
          (some (base * (10 : ℚ) ^ (if es < 0 then -(epr.fst : ℤ) else (epr.fst : ℤ))),
            epr.snd.snd)
      else (some base, l4)
    | [] => (some base, [])

/-- JS `parseFloat`. -/
def jsParseFloat (s : String) : Option ℚ := (jsParseFloatCore s.data).fst

/-- JS `Number()` coercion of a string (simplified: no hex or infinity forms):
empty after trim is `0`; otherwise the whole string must parse. -/
def jsNumber (s : String) : Option ℚ :=
  let t := jsTrim s
  if t == "" then some 0
  else
    match jsParseFloatCore t.data with
    | (some v, []) => some v
    | _ => none

/-- JS `parseInt` with radix 10: whitespace, sign, leading digits. -/
def jsParseInt (s : String) : Option Int :=
  let l1 := s.data.dropWhile isJsWs
  let sg := (parseSign l1).fst
  let l2 := (parseSign l1).snd
  let r := parseDigitsAux 0 0 l2
  if r.snd.fst == 0 then none
  else some (if sg < 0 then -(r.fst : Int) else (r.fst : Int))

/-- Value of one hexadecimal digit. -/
def hexVal (c : Char) : Option Nat :=
  if c.isDigit then some (c.toNat - 48)
  else if 97 ≤ c.toNat ∧ c.toNat ≤ 102 then some (c.toNat - 87)
  else if 65 ≤ c.toNat ∧ c.toNat ≤ 70 then some (c.toNat - 55)
  else none

/-- Accumulate leading hex digits; returns value and digit count. -/
def parseHexDigitsAux : Nat → Nat → List Char → Nat × Nat
  | acc, n, [] => (acc, n)
  | acc, n, c :: t =>
    match hexVal c with
    | some d => parseHexDigitsAux (acc * 16 + d) (n + 1) t
    | none => (acc, n)

/-- JS `parseInt(s, 16)` (simplified: no sign or `0x` prefix — the source only
applies it to one- and two-character fragments of hex color strings). -/
def jsParseHex (s : String) : Option Nat :=
  let r := parseHexDigitsAux 0 0 (s.data.dropWhile isJsWs)
  if r.snd == 0 then none else some r.fst

/-- `x <= b` under JS `NaN` semantics. -/
def oLe (x : Option ℚ) (b : ℚ) : Bool :=
  match x with
  | some v => decide (v ≤ b)
  | none => false

/-- `x < b` under JS `NaN` semantics. -/
def oLt (x : Option ℚ) (b : ℚ) : Bool :=
  match x with
  | some v => decide (v < b)
  | none => false

/-- `x === b` under JS `NaN` semantics. -/
def oEqQ (x : Option ℚ) (b : ℚ) : Bool :=
  match x with
  | some v => decide (v = b)
  | none => false

/-- `b <= x` on `Option Int` under JS `NaN` semantics. -/
def oGeI (x : Option Int) (b : Int) : Bool :=
  match x with
  | some v => decide (b ≤ v)
  | none => false

/-- `b < x` on `Option Nat` under JS `NaN` semantics. -/
def nGt (x : Option Nat) (b : Nat) : Bool :=
  match x with
  | some v => decide (b < v)
  | none => false

/-- `x < b` on `Option Nat` under JS `NaN` semantics. -/
def nLt (x : Option Nat) (b : Nat) : Bool :=
  match x with
  | some v => decide (v < b)
  | none => false

/-- JS `size.replace(/[\d.-]/g, '')`: the "unit" extraction shared by
`convertSizeToTailwind` and `mapFontSize`. -/
def stripNumChars (s : String) : String :=
  strOf (s.data.filter (fun c => !(c.isDigit || c == '.' || c == '-')))

/-! ## JSON values

`JsVal` models the JavaScript values flowing through `settings` and `props`
(`Record<string, any>` in the sources). -/

/-- A JavaScript value: string, number, boolean, null, array or object. -/
inductive JsVal where
  | str (s : String)
  | num (q : ℚ)
  | bool (b : Bool)
  | null
  | arr (elems : List JsVal)
  | obj (fields : List (String × JsVal))

/-- JS truthiness. -/
def jsTruthy : JsVal → Bool
  | .str s => s != ""
  | .num q => decide (q ≠ 0)
  | .bool b => b
  | .null => false
  | .arr _ => true
  | .obj _ => true

/-- Record field lookup (`o.k`), `none` for a missing key (`undefined`). -/
def lookupA {A : Type} (l : List (String × A)) (k : String) : Option A :=
  (l.find? (fun p => p.fst == k)).map Prod.snd

/-- Record field assignment `o[k] = v`: a JS object keeps the key at its
first position and overwrites the value, or appends a new key at the end. -/
def upsertA {A : Type} : List (String × A) → String → A → List (String × A)
  | [], k, v => [(k, v)]
  | p :: ps, k, v => if p.fst == k then (p.fst, v) :: ps else p :: upsertA ps k v

/-- Object field lookup on JS values. -/
def lookupJ (l : List (String × JsVal)) (k : String) : Option JsVal := lookupA l k

/-- Object field assignment on JS values. -/
def upsertJ (l : List (String × JsVal)) (k : String) (v : JsVal) :
    List (String × JsVal) :=
  upsertA l k v

/-- String-record lookup (for `styles` / plain attributes). -/
def lookupS (l : List (String × String)) (k : String) : Option String := lookupA l k

/-- String-record assignment. -/
def upsertS (l : List (String × String)) (k : String) (v : String) :
    List (String × String) :=
  upsertA l k v

/-- Truthiness of an optional string (JS `undefined` or `''` are falsy). -/
def sTruthy (o : Option String) : Bool :=
  match o with
  | some v => v != ""
  | none => false

/-- Truthiness of an optional JS value. -/
def jTruthy (o : Option JsVal) : Bool :=
  match o with
  | some v => jsTruthy v
  | none => false

/-! ## tailwindMapper.ts -/

/-- `TailwindColor` (tailwindMapper.ts lines 6-9). -/
structure TailwindColor where
  color : String
  className : String
deriving DecidableEq

/-- `mapHexColor` (tailwindMapper.ts lines 181-215): 3- or 6-digit hex to RGB
(`parseInt(_, 16)`, `NaN` as `none`), then coarse RGB-range bucketing. -/
def mapHexColor (hex : String) : TailwindColor :=
  let rgb : Option Nat × Option Nat × Option Nat :=
    match hex.data with
    | [_, a, b, c] =>
      (jsParseHex (strOf [a, a]), jsParseHex (strOf [b, b]), jsParseHex (strOf [c, c]))
    | [_, a, b, c, d, e, f] =>
      (jsParseHex (strOf [a, b]), jsParseHex (strOf [c, d]), jsParseHex (strOf [e, f]))
    | _ => (some 0, some 0, some 0)
  let r := rgb.fst
  let g := rgb.snd.fst
  let b := rgb.snd.snd
  if nGt r 200 && nGt g 200 && nGt b 200 then ⟨"gray-100", "bg-gray-100"⟩
  else if nLt r 50 && nLt g 50 && nLt b 50 then ⟨"gray-900", "bg-gray-900"⟩
  else if nGt r 200 && nLt g 100 && nLt b 100 then ⟨"red-500", "bg-red-500"⟩
  else if nLt r 100 && nGt g 150 && nLt b 100 then ⟨"green-500", "bg-green-500"⟩
  else if nLt r 100 && nLt g 100 && nGt b 200 then ⟨"blue-500", "bg-blue-500"⟩
  else if nGt r 200 && nGt g 150 && nLt b 100 then ⟨"yellow-500", "bg-yellow-500"⟩
  else if nGt r 150 && nLt g 100 && nGt b 150 then ⟨"purple-500", "bg-purple-500"⟩
  else ⟨"gray-500", "bg-gray-500"⟩

/-- Attempt the regex `rgba?\((\d+),\s*(\d+),\s*(\d+)(?:,\s*([\d.]+))?\)` at
the head of the input; returns the three digit groups as `Nat` and the raw
alpha capture. -/
def rgbAttempt (l : List Char) : Option (Nat × Nat × Nat × Option (List Char)) :=
  if isPrefixChars ("rgb".data) l then
    let r0 := l.drop 3
    let afterParen : Option (List Char) :=
      match r0 with
      | 'a' :: '(' :: t => some t
      | '(' :: t => some t
      | _ => none
    match afterParen with
    | none => none
    | some t1 =>
      let d1 := t1.takeWhile Char.isDigit
      if d1.isEmpty then none
      else
        match t1.drop d1.length with
        | ',' :: t2 =>
          let t3 := t2.dropWhile isJsWs
          let d2 := t3.takeWhile Char.isDigit
          if d2.isEmpty then none
          else
            match t3.drop d2.length with
            | ',' :: t4 =>
              let t5 := t4.dropWhile isJsWs
              let d3 := t5.takeWhile Char.isDigit
              if d3.isEmpty then none
              else
                let digitsVal := fun (ds : List Char) => (parseDigitsAux 0 0 ds).fst
                match t5.drop d3.length with
                | ')' :: _ => some (digitsVal d1, digitsVal d2, digitsVal d3, none)
                | ',' :: u =>
                  let u1 := u.dropWhile isJsWs
                  let a := u1.takeWhile (fun c => c.isDigit || c == '.')
                  if a.isEmpty then none
                  else
                    match u1.drop a.length with
                    | ')' :: _ => some (digitsVal d1, digitsVal d2, digitsVal d3, some a)
                    | _ => none
                | _ => none
            | _ => none
        | _ => none
  else none

/-- Try a matcher at every suffix, leftmost success first (regex search). -/
def firstSome {α : Type} (f : List Char → Option α) : List Char → Option α
  | [] => f []
  | l@(_ :: t) =>
    match f l with
    | some r => some r
    | none => firstSome f t

/-- Hexadecimal digits of a number (lowercase), JS `n.toString(16)`. -/
def natToHexChars (n : Nat) : List Char := Nat.toDigits 16 n

/-- JS `('0' + n.toString(16)).slice(-2)`. -/
def hexPad2 (n : Nat) : List Char :=
  let h := '0' :: natToHexChars n
  h.drop (h.length - 2)

/-- `mapRgbColor` (tailwindMapper.ts lines 220-241): regex extraction, the
alpha-below-half transparency rule, then hex re-mapping. -/
def mapRgbColor (rgb : String) : TailwindColor :=
  match firstSome rgbAttempt rgb.data with
  | none => ⟨"gray-500", "bg-gray-500"⟩
  | some (r, g, b, alphaRaw) =>
    let a : Option ℚ :=
      match alphaRaw with
      | some chars => (jsParseFloatCore chars).fst
      | none => some 1
    if oLt a (1 / 2) then ⟨"transparent", "bg-transparent"⟩
    else mapHexColor (strOf ('#' :: (hexPad2 r ++ hexPad2 g ++ hexPad2 b)))

/-- `mapNamedColor` (tailwindMapper.ts lines 246-263). -/
def mapNamedColor (color : String) : TailwindColor :=
  let key := color.toLower
  if key == "white" then ⟨"white", "bg-white"⟩
  else if key == "black" then ⟨"black", "bg-black"⟩
  else if key == "red" then ⟨"red-500", "bg-red-500"⟩
  else if key == "green" then ⟨"green-500", "bg-green-500"⟩
  else if key == "blue" then ⟨"blue-500", "bg-blue-500"⟩
  else if key == "yellow" then ⟨"yellow-500", "bg-yellow-500"⟩
  else if key == "purple" then ⟨"purple-500", "bg-purple-500"⟩
  else if key == "pink" then ⟨"pink-500", "bg-pink-500"⟩
  else if key == "gray" then ⟨"gray-500", "bg-gray-500"⟩
  else if key == "grey" then ⟨"gray-500", "bg-gray-500"⟩
  else ⟨"gray-500", "bg-gray-500"⟩

/-- `tailwindMapper.mapColor` (tailwindMapper.ts lines 15-33). -/
def mapColor (color : String) : TailwindColor :=
  if color == "transparent" || color == "none" then ⟨"transparent", "bg-transparent"⟩
  else if jsStartsWith color ("#") then mapHexColor color
  else if jsStartsWith color ("rgb") then mapRgbColor color
  else mapNamedColor color

/-- Anchored class-prefix rewrite: JS `className.replace` with a regex matching
one of the alternative prefixes followed by a hyphen at the string start. -/
def rewritePrefix (alts : List String) (tgt : String) (s : String) : String :=
  match alts.find? (fun a => jsStartsWith s (a ++ "-")) with
  | some a => tgt ++ strOf (s.data.drop (a.length + 1))
  | none => s

/-- `tailwindMapper.mapBackgroundColor` (tailwindMapper.ts lines 38-43). -/
def mapBackgroundColor (color : String) : TailwindColor :=
  let m := mapColor color
  ⟨m.color, rewritePrefix [("bg"), ("text")] ("bg-") m.className⟩

/-- `tailwindMapper.mapTextColor` (tailwindMapper.ts lines 48-53). -/
def mapTextColor (color : String) : TailwindColor :=
  let m := mapColor color
  ⟨m.color, rewritePrefix [("bg"), ("text")] ("text-") m.className⟩

/-- `tailwindMapper.mapBorderColor` (tailwindMapper.ts lines 58-63). -/
def mapBorderColor (color : String) : TailwindColor :=
  let m := mapColor color
  ⟨m.color, rewritePrefix [("bg"), ("text"), ("border")] ("border-") m.className⟩

/-- `tailwindMapper.mapButtonColor` (tailwindMapper.ts lines 68-105):
bucket a mapped color name into the React Bricks button colors. -/
def mapButtonColor (color : String) : JsVal :=
  let cn := (mapColor color).color
  if jsIncludes cn ("pink") || jsIncludes cn ("fuchsia") || jsIncludes cn ("rose") then
    JsVal.obj [(("value"), JsVal.str ("pink")), (("label"), JsVal.str ("Pink"))]
  else if jsIncludes cn ("purple") || jsIncludes cn ("violet") then
    JsVal.obj [(("value"), JsVal.str ("purple")), (("label"), JsVal.str ("Purple"))]
  else if jsIncludes cn ("blue") || jsIncludes cn ("sky") || jsIncludes cn ("cyan") then
    JsVal.obj [(("value"), JsVal.str ("blue")), (("label"), JsVal.str ("Blue"))]
  else if jsIncludes cn ("green") || jsIncludes cn ("emerald") || jsIncludes cn ("teal") then
    JsVal.obj [(("value"), JsVal.str ("green")), (("label"), JsVal.str ("Green"))]
  else if jsIncludes cn ("yellow") || jsIncludes cn ("amber") then
    JsVal.obj [(("value"), JsVal.str ("yellow")), (("label"), JsVal.str ("Yellow"))]
  else if jsIncludes cn ("red") then
    JsVal.obj [(("value"), JsVal.str ("red")), (("label"), JsVal.str ("Red"))]
  else if jsIncludes cn ("gray") || jsIncludes cn ("grey") || jsIncludes cn ("slate") then
    JsVal.obj [(("value"), JsVal.str ("gray")), (("label"), JsVal.str ("Gray"))]
  else JsVal.obj [(("value"), JsVal.str ("gray")), (("label"), JsVal.str ("Gray"))]

/-- Pixel bucketing of `convertSizeToTailwind` (tailwindMapper.ts lines
283-303): the fixed ascending spacing scale. -/
def bucketPixels (px : Option ℚ) : String :=
  if oEqQ px 0 then "none"
  else if oLe px 1 then "px"
  else if oLe px 2 then "0.5"
  else if oLe px 4 then "1"
  else if oLe px 6 then "1.5"
  else if oLe px 8 then "2"
  else if oLe px 12 then "3"
  else if oLe px 16 then "4"
  else if oLe px 20 then "5"
  else if oLe px 24 then "6"
  else if oLe px 32 then "8"
  else if oLe px 40 then "10"
  else if oLe px 48 then "12"
  else if oLe px 64 then "16"
  else if oLe px 80 then "20"
  else if oLe px 96 then "24"
  else if oLe px 128 then "32"
  else if oLe px 160 then "40"
  else if oLe px 192 then "48"
  else "large"

/-- `convertSizeToTailwind` (tailwindMapper.ts lines 268-304): `parseFloat`
value, unit by stripping `[\d.-]`, `em`/`rem` scaled by 16, `%` mapped to
`normal`, any other unit (including `pt`) bucketed as raw pixels. -/
def convertSizeToTailwind (size : String) : String :=
  let value := jsParseFloat size
  let unit := stripNumChars size
  if unit = "em" ∨ unit = "rem" then bucketPixels (value.map (fun q => q * 16))
  else if unit = "%" then "normal"
  else bucketPixels value

/-- `tailwindMapper.mapPadding` (tailwindMapper.ts lines 110-132). -/
def mapPadding (padding : String) : String :=
  match jsSplitRuns isJsWs (jsTrim padding) with
  | [a] => convertSizeToTailwind a
  | [a, b] => convertSizeToTailwind a ++ "-y " ++ convertSizeToTailwind b ++ "-x"
  | [a, _, c, _] => convertSizeToTailwind a ++ "-t " ++ convertSizeToTailwind c ++ "-b"
  | _ => "normal"

/-- `tailwindMapper.mapSinglePadding` (tailwindMapper.ts lines 137-139). -/
def mapSinglePadding (padding : String) : String := convertSizeToTailwind padding

/-- `tailwindMapper.mapMargin` (tailwindMapper.ts lines 144-147):
`mapPadding(margin).replace(/p/g, 'm')`. -/
def mapMargin (margin : String) : String :=
  replaceAllChar 'p' 'm' (mapPadding margin)

/-- The named-scale bucketing of `tailwindMapper.mapFontSize`
(tailwindMapper.ts lines 164-174). -/
def fontBucket (sizeInPx : Option ℚ) : String :=
  if oLe sizeInPx 12 then "xs"
  else if oLe sizeInPx 14 then "sm"
  else if oLe sizeInPx 16 then "base"
  else if oLe sizeInPx 18 then "lg"
  else if oLe sizeInPx 20 then "xl"
  else if oLe sizeInPx 24 then "2xl"
  else if oLe sizeInPx 30 then "3xl"
  else if oLe sizeInPx 36 then "4xl"
  else if oLe sizeInPx 48 then "5xl"
  else "6xl"

/-- `tailwindMapper.mapFontSize` unit handling (tailwindMapper.ts lines
152-163): unlike `convertSizeToTailwind`, this one converts `pt` by 1.333. -/
def mapFontSize (fontSize : String) : String :=
  let size := jsParseFloat fontSize
  let unit := stripNumChars fontSize
  let sizeInPx :=
    if unit = "em" ∨ unit = "rem" then size.map (fun q => q * 16)
    else if unit = "pt" then size.map (fun q => q * (1333 / 1000))
    else size
  fontBucket sizeInPx

/-- `calculateColumnWidth` (reactBricksMapper.ts lines 452-461). -/
def calculateColumnWidth (columnSize : ℚ) : String :=
  if columnSize ≤ 25 then "1/4"
  else if columnSize ≤ 3333 / 100 then "1/3"
  else if columnSize ≤ 50 then "1/2"
  else if columnSize ≤ 6666 / 100 then "2/3"
  else if columnSize ≤ 75 then "3/4"
  else "full"

/-- `calculateColumnWidth` as reached from `mapColumn` on a raw settings
value: a non-numeric coercion (`NaN`) fails every `<=` test and lands on
`full`. -/
def calculateColumnWidthJs (columnSize : Option ℚ) : String :=
  match columnSize with
  | some q => calculateColumnWidth q
  | none => "full"

/-! ## Character constants

Quote, backslash, backtick and brace characters are written via `Char.ofNat`
so that generated-code templates stay readable. -/

/-- The single-quote character. -/
def cQuote : Char := Char.ofNat 39

/-- The double-quote character. -/
def cDq : Char := Char.ofNat 34

/-- The backslash character. -/
def cBs : Char := Char.ofNat 92

/-- Either JS string quote. -/
def isQuoteC (c : Char) : Bool := c == cQuote || c == cDq

/-- Complement of the JS regex dot exclusion (dot does not match newlines). -/
def nonNL (c : Char) : Bool := !(c == '\n' || c == '\r')

/-! ## Regex matchers of the sources

Each definition mirrors one regular expression from the TypeScript sources,
with first-match (leftmost, with backtracking) semantics implemented via
`firstSome` over suffixes. -/

/-- Lazy capture of the regex in `mapSection`, matching a possibly quoted url
body up to the closing parenthesis: at each point first try to close with an
optional quote followed by a closing parenthesis, else extend. -/
def urlLazyCap (acc : List Char) : List Char → Option (List Char)
  | [] => none
  | c :: t =>
    if c == ')' then some acc.reverse
    else if isQuoteC c && (match t with | ')' :: _ => true | _ => false) then
      some acc.reverse
    else if nonNL c then urlLazyCap (c :: acc) t
    else none

/-- One attempt of the `mapSection` background-image regex
(`url` + open paren + optional quote + lazy capture + optional quote +
close paren) anchored at the head. -/
def urlAttempt (l : List Char) : Option String :=
  if isPrefixChars ("url(".data) l then
    let r := l.drop 4
    match r with
    | c :: t =>
      if isQuoteC c then
        match urlLazyCap [] t with
        | some cap => some (strOf cap)
        | none => (urlLazyCap [] r).map strOf
      else (urlLazyCap [] r).map strOf
    | [] => none
  else none

/-- The captured group of the background-image url regex, searched anywhere. -/
def matchUrlCapture (s : String) : Option String := firstSome urlAttempt s.data

/-- Capture between quotes: one quote character, a lazy run of
non-quote non-newline characters, then either quote character. -/
def quotedLazyCap (l : List Char) : Option String :=
  match l with
  | q :: r =>
    if isQuoteC q then
      let cap := r.takeWhile (fun c => !(isQuoteC c) && nonNL c)
      match r.drop cap.length with
      | c2 :: _ => if isQuoteC c2 then some (strOf cap) else none
      | [] => none
    else none
  | [] => none

/-- One attempt of `src=` followed by a quoted capture. -/
def srcCapAttempt (l : List Char) : Option String :=
  if isPrefixChars ("src=".data) l then quotedLazyCap (l.drop 4) else none

/-- One attempt of the `href=` quoted-capture regex of `mapButton` and the
code generator. -/
def hrefAttempt (l : List Char) : Option String :=
  if isPrefixChars ("href=".data) l then quotedLazyCap (l.drop 5) else none

/-- First `href=` quoted capture in the string. -/
def matchHref (s : String) : Option String := firstSome hrefAttempt s.data

/-- One attempt of the `alt=` quoted-capture regex of the code generator. -/
def altAttempt (l : List Char) : Option String :=
  if isPrefixChars ("alt=".data) l then quotedLazyCap (l.drop 4) else none

/-- First `alt=` quoted capture in the string. -/
def matchAlt (s : String) : Option String := firstSome altAttempt s.data

/-- Lazy gap after an `img` open tag: extend over non-newline characters
until a `src=` quoted capture succeeds. -/
def imgGap : List Char → Option String
  | [] => none
  | c :: t =>
    match srcCapAttempt (c :: t) with
    | some s => some s
    | none => if nonNL c then imgGap t else none

/-- One attempt of the image-source regex of `mapImage` and the code
generator: an `img` open tag, a lazy non-newline gap, then a `src=`
quoted capture. -/
def imgSrcAttempt (l : List Char) : Option String :=
  if isPrefixChars ("<img".data) l then imgGap (l.drop 4) else none

/-- First image `src` capture in the string. -/
def matchImgSrc (s : String) : Option String := firstSome imgSrcAttempt s.data

/-- One attempt of the `mapButton` direct-text regex: a closing angle
bracket, one or more non-angle characters, an opening angle bracket. -/
def btnTextAttempt (l : List Char) : Option String :=
  match l with
  | '>' :: t =>
    let cap := t.takeWhile (fun c => c != '<')
    if cap.isEmpty then none
    else
      match t.drop cap.length with
      | '<' :: _ => some (strOf cap)
      | _ => none
  | _ => none

/-- First text-between-angle-brackets capture in the string. -/
def matchGtTextLt (s : String) : Option String := firstSome btnTextAttempt s.data

/-- Stop set of the YouTube id capture: quote, ampersand, question mark,
slash and whitespace. -/
def ytStopChar (c : Char) : Bool :=
  c == cDq || c == '&' || c == '?' || c == '/' || isJsWs c

/-- One attempt of the `mapVideo` YouTube regex (`youtube`, a wildcard for
the unescaped dot, `com`, the embed path, then the id capture). -/
def youtubeAttempt (l : List Char) : Option String :=
  match l with
  | 'y' :: 'o' :: 'u' :: 't' :: 'u' :: 'b' :: 'e' :: _ :: 'c' :: 'o' :: 'm' :: '/' ::
      'e' :: 'm' :: 'b' :: 'e' :: 'd' :: '/' :: rest =>
    let cap := rest.takeWhile (fun c => !(ytStopChar c))
    if cap.isEmpty then none else some (strOf cap)
  | _ => none

/-- First YouTube embed id in the string. -/
def matchYoutubeId (s : String) : Option String := firstSome youtubeAttempt s.data

/-- One attempt of the `mapVideo` Vimeo regex (`vimeo`, wildcard dot, `com`,
a slash, an optional greedy `video` path segment, then a digit capture). -/
def vimeoAttempt (l : List Char) : Option String :=
  match l with
  | 'v' :: 'i' :: 'm' :: 'e' :: 'o' :: _ :: 'c' :: 'o' :: 'm' :: '/' :: rest =>
    let afterVideo := if isPrefixChars ("video/".data) rest then rest.drop 6 else rest
    let cap1 := afterVideo.takeWhile Char.isDigit
    if !cap1.isEmpty then some (strOf cap1)
    else
      let cap2 := rest.takeWhile Char.isDigit
      if !cap2.isEmpty then some (strOf cap2) else none
  | _ => none

/-- First Vimeo id in the string. -/
def matchVimeoId (s : String) : Option String := firstSome vimeoAttempt s.data

/-- True when the reversed capture so far ends in `.mp4`, `.webm` or `.ogg`. -/
def extSuffixOk (accRev : List Char) : Bool :=
  isPrefixChars ("4pm.".data) accRev || isPrefixChars ("mbew.".data) accRev ||
    isPrefixChars ("ggo.".data) accRev

/-- Lazy capture of the `mapVideo` hosted-file regex: shortest non-newline
run ending in a media extension and followed by a quote. -/
def extLazyCap (accRev : List Char) : List Char → Option (List Char)
  | [] => none
  | c :: t =>
    if isQuoteC c && extSuffixOk accRev then some accRev.reverse
    else if nonNL c then extLazyCap (c :: accRev) t
    else none

/-- One attempt of the hosted-video source regex (`src=`, a quote, a lazy
capture ending in mp4, webm or ogg, a quote). -/
def videoSrcAttempt (l : List Char) : Option String :=
  if isPrefixChars ("src=".data) l then
    match l.drop 4 with
    | q :: r => if isQuoteC q then (extLazyCap [] r).map strOf else none
    | [] => none
  else none

/-- First hosted-video source url in the string. -/
def matchVideoFileUrl (s : String) : Option String := firstSome videoSrcAttempt s.data

/-- Lazy capture up to the first closing span tag, over non-newlines. -/
def spanCapAux (accRev : List Char) : List Char → Option String
  | [] => none
  | l@(c :: t) =>
    if isPrefixChars ("</span>".data) l then some (strOf accRev.reverse)
    else if nonNL c then spanCapAux (c :: accRev) t
    else none

/-- One attempt of the code generator's span-text regex: a span open tag
(attributes are a greedy non-angle run), then a lazy capture up to the
closing span tag. -/
def spanTextAttempt (l : List Char) : Option String :=
  if isPrefixChars ("<span".data) l then
    let r := l.drop 5
    let attrsRun := r.takeWhile (fun c => c != '>')
    match r.drop attrsRun.length with
    | '>' :: t => spanCapAux [] t
    | _ => none
  else none

/-- First span text capture in the string. -/
def matchSpanText (s : String) : Option String := firstSome spanTextAttempt s.data

/-- Global tag-stripping replace of the code generator: an angle bracket,
one or more non-closing characters (the optional slash is itself such a
character), then a closing bracket or the end of input; matches are removed
left to right.  Fuel is the input length, and every step consumes at least
one character. -/
def stripTagsGo (fuel : Nat) (l : List Char) : List Char :=
  match fuel with
  | 0 => l
  | fuel + 1 =>
    match l with
    | [] => []
    | '<' :: t =>
      let run := t.takeWhile (fun c => c != '>')
      if run.isEmpty then '<' :: stripTagsGo fuel t
      else
        match t.drop run.length with
        | '>' :: rest => stripTagsGo fuel rest
        | _ => []
    | c :: t => c :: stripTagsGo fuel t

/-- String wrapper for the global tag strip. -/
def jsStripTags (s : String) : String := strOf (stripTagsGo (s.length + 1) s.data)

/-- Global scrub of class attributes mentioning the builder
(`cleanHtmlContent`, reactBricksMapper.ts lines 466-472): a whitespace
character, a double-quoted class attribute whose body contains `elementor`. -/
def scrubClassAttr (fuel : Nat) (l : List Char) : List Char :=
  match fuel with
  | 0 => l
  | fuel + 1 =>
    match l with
    | [] => []
    | c :: t =>
      if isJsWs c && isPrefixChars ("class=".data ++ [cDq]) t then
        let body := (t.drop 7).takeWhile (fun x => x != cDq)
        match (t.drop 7).drop body.length with
        | _ :: rest =>
          if containsChars ("elementor".data) body then scrubClassAttr fuel rest
          else c :: scrubClassAttr fuel t
        | [] => c :: scrubClassAttr fuel t
      else c :: scrubClassAttr fuel t

/-- Global scrub of builder data attributes (`cleanHtmlContent`): a
whitespace character, `data-elementor`, a greedy non-equals run, an equals
sign and a double-quoted body. -/
def scrubDataAttr (fuel : Nat) (l : List Char) : List Char :=
  match fuel with
  | 0 => l
  | fuel + 1 =>
    match l with
    | [] => []
    | c :: t =>
      if isJsWs c && isPrefixChars ("data-elementor".data) t then
        let afterKey := t.drop 14
        let eqRun := afterKey.takeWhile (fun x => x != '=')
        match afterKey.drop eqRun.length with
        | '=' :: q :: rest1 =>
          if q == cDq then
            let body := rest1.takeWhile (fun x => x != cDq)
            match rest1.drop body.length with
            | _ :: rest2 => scrubDataAttr fuel rest2
            | [] => c :: scrubDataAttr fuel t
          else c :: scrubDataAttr fuel t
        | _ => c :: scrubDataAttr fuel t
      else c :: scrubDataAttr fuel t

/-- `cleanHtmlContent` (reactBricksMapper.ts lines 466-472): drop
builder-specific class and data attributes, then trim. -/
def cleanHtmlContent (html : String) : String :=
  let s1 := scrubClassAttr (html.length + 1) html.data
  jsTrim (strOf (scrubDataAttr (s1.length + 1) s1))

/-! ## JSON decoding (external collaborator)

`JSON.parse` with the raw-string fallback is modelled by a small fuel-indexed
JSON reader; fuel exhaustion or a syntax error yields `none`, which the
parser turns into the raw-string fallback exactly as the `try`/`catch` does. -/

/-- JSON whitespace. -/
def isJsonWs (c : Char) : Bool := c == ' ' || c == '\t' || c == '\n' || c == '\r'

/-- Decode four hex digits. -/
def hex4 (a b c d : Char) : Option Nat :=
  match hexVal a, hexVal b, hexVal c, hexVal d with
  | some x, some y, some z, some w => some (((x * 16 + y) * 16 + z) * 16 + w)
  | _, _, _, _ => none

/-- JSON string body after the opening quote, with escape handling. -/
def jsonStringBody (fuel : Nat) (acc : List Char) (l : List Char) :
    Option (String × List Char) :=
  match fuel with
  | 0 => none
  | fuel + 1 =>
    match l with
    | [] => none
    | c :: t =>
      if c == cDq then some (strOf acc.reverse, t)
      else if c == cBs then
        match t with
        | e :: t2 =>
          if e == cDq then jsonStringBody fuel (cDq :: acc) t2
          else if e == cBs then jsonStringBody fuel (cBs :: acc) t2
          else if e == '/' then jsonStringBody fuel ('/' :: acc) t2
          else if e == 'n' then jsonStringBody fuel ('\n' :: acc) t2
          else if e == 't' then jsonStringBody fuel ('\t' :: acc) t2
          else if e == 'r' then jsonStringBody fuel ('\r' :: acc) t2
          else if e == 'b' then jsonStringBody fuel ('\x08' :: acc) t2
          else if e == 'f' then jsonStringBody fuel ('\x0c' :: acc) t2
          else if e == 'u' then
            match t2 with
            | h1 :: h2 :: h3 :: h4c :: t3 =>
              match hex4 h1 h2 h3 h4c with
              | some n =>
                if n < 0xd800 ∨ (0xdfff < n ∧ n < 1114112) then
                  jsonStringBody fuel (Char.ofNat n :: acc) t3
                else none
              | none => none
            | _ => none
          else none
        | [] => none
      else if c.toNat < 32 then none
      else jsonStringBody fuel (c :: acc) t

/-- A JSON number at the head of the input (slightly looser than the JSON
grammar: leading zeros and a leading plus are tolerated). -/
def jsonNumber (l : List Char) : Option (ℚ × List Char) :=
  match jsParseFloatCore l with
  | (some v, rest) => some (v, rest)
  | (none, _) => none

mutual

/-- One JSON value, leading whitespace allowed. -/
def jsonParseV : Nat → List Char → Option (JsVal × List Char)
  | 0, _ => none
  | fuel + 1, l =>
    let l1 := l.dropWhile isJsonWs
    match l1 with
    | [] => none
    | c :: t =>
      if c == cDq then (jsonStringBody (fuel + 1) [] t).map (fun p => (JsVal.str p.fst, p.snd))
      else if isPrefixChars ("true".data) l1 then some (JsVal.bool true, l1.drop 4)
      else if isPrefixChars ("false".data) l1 then some (JsVal.bool false, l1.drop 5)
      else if isPrefixChars ("null".data) l1 then some (JsVal.null, l1.drop 4)
      else if c == '[' then
        let t1 := t.dropWhile isJsonWs
        match t1 with
        | ']' :: rest => some (JsVal.arr [], rest)
        | _ => jsonParseArr fuel t []
      else if c == Char.ofNat 123 then
        let t1 := t.dropWhile isJsonWs
        match t1 with
        | b :: rest => if b == Char.ofNat 125 then some (JsVal.obj [], rest) else jsonParseObjF fuel t []
        | [] => none
      else (jsonNumber l1).map (fun p => (JsVal.num p.fst, p.snd))

/-- Array elements, called after the opening bracket. -/
def jsonParseArr : Nat → List Char → List JsVal → Option (JsVal × List Char)
  | 0, _, _ => none
  | fuel + 1, l, acc =>
    match jsonParseV fuel l with
    | none => none
    | some (v, rest) =>
      let r1 := rest.dropWhile isJsonWs
      match r1 with
      | ',' :: r2 => jsonParseArr fuel r2 (v :: acc)
      | ']' :: r2 => some (JsVal.arr (v :: acc).reverse, r2)
      | _ => none

/-- Object members, called after the opening brace. -/
def jsonParseObjF : Nat → List Char → List (String × JsVal) →
    Option (JsVal × List Char)
  | 0, _, _ => none
  | fuel + 1, l, acc =>
    let l1 := l.dropWhile isJsonWs
    match l1 with
    | c :: t =>
      if c == cDq then
        match jsonStringBody (fuel + 1) [] t with
        | some (k, r1) =>
          let r2 := r1.dropWhile isJsonWs
          match r2 with
          | ':' :: r3 =>
            match jsonParseV fuel r3 with
            | some (v, r4) =>
              let r5 := r4.dropWhile isJsonWs
              match r5 with
              | ',' :: r6 => jsonParseObjF fuel r6 ((k, v) :: acc)
              | b :: r6 =>
                if b == Char.ofNat 125 then some (JsVal.obj ((k, v) :: acc).reverse, r6)
                else none
              | [] => none
            | none => none
          | _ => none
        | none => none
      else none
    | [] => none

end

/-- `JSON.parse` on a string: the whole input, up to trailing whitespace,
must form one JSON value; `none` models the thrown `SyntaxError`. -/
def jsJsonParse (s : String) : Option JsVal :=
  match jsonParseV (2 * s.length + 4) s.data with
  | some (v, rest) => if (rest.dropWhile isJsonWs).isEmpty then some v else none
  | none => none

/-! ## elementorParser.ts

The HTTP fetch and the JSDOM construction are the Parser's external
collaborators (spec section 6); their outcome — either a failure message or
a decoded document — is the embedded parser's input.  `DomNode` models a
decoded DOM element: tag name, attributes in document order, inner markup
(also standing for `textContent` on style elements), and element children. -/

/-- A decoded DOM element. -/
inductive DomNode where
  | mk (tag : String) (attrs : List (String × String)) (innerHTML : String)
      (children : List DomNode)

/-- Tag name of a node. -/
def DomNode.tagName : DomNode → String
  | .mk t _ _ _ => t

/-- Attributes of a node, in document order. -/
def DomNode.attrs : DomNode → List (String × String)
  | .mk _ a _ _ => a

/-- Inner markup of a node. -/
def DomNode.innerHTML : DomNode → String
  | .mk _ _ h _ => h

/-- Element children of a node. -/
def DomNode.children : DomNode → List DomNode
  | .mk _ _ _ kids => kids

/-- `el.getAttribute(name)`. -/
def getAttr (n : DomNode) (name : String) : Option String :=
  (n.attrs.find? (fun a => a.fst == name)).map Prod.snd

/-- Keep the first occurrence of each string (DOMTokenList is an ordered set). -/
def dedupStrings (l : List String) : List String :=
  l.foldl (fun acc t => if acc.contains t then acc else acc ++ [t]) []

/-- `Array.from(el.classList)`: the class attribute split on whitespace,
empty tokens dropped, duplicates removed keeping first positions. -/
def classListOf (n : DomNode) : List String :=
  dedupStrings ((jsSplitRuns isJsWs ((getAttr n ("class")).getD "")).filter
    (fun t => t != ""))

/-- `el.id`: the id attribute, or the empty string. -/
def idOf (n : DomNode) : String := (getAttr n ("id")).getD ""

mutual

/-- All elements of a subtree in document (pre-)order. -/
def allNodes : DomNode → List DomNode
  | DomNode.mk t a h kids => DomNode.mk t a h kids :: allNodesL kids

/-- All elements of a forest in document order. -/
def allNodesL : List DomNode → List DomNode
  | [] => []
  | k :: ks => allNodes k ++ allNodesL ks

end

/-- `document.querySelector` for a class selector: the first element in
document order carrying the class. -/
def querySelectorClass (root : DomNode) (cls : String) : Option DomNode :=
  (allNodes root).find? (fun n => (classListOf n).contains cls)

/-- A fetched and DOM-decoded page. -/
structure HtmlDocument where
  title : String
  root : DomNode

/-- `extractGlobalStyles` (elementorParser.ts lines 68-84): every style
element whose text mentions the builder, keyed by an incrementing
synthetic key. -/
def extractGlobalStyles (doc : HtmlDocument) : List (String × String) :=
  ((allNodes doc.root).filter (fun n => n.tagName.toLower == "style")).foldl
    (fun styles st =>
      if jsIncludes st.innerHTML ("elementor") then
        styles ++ [("style_" ++ toString styles.length, st.innerHTML)]
      else styles) []

/-- `ElementorElement` (elementorParser.ts lines 7-17). -/
inductive ElementorElement where
  | mk (id : String) (type : String) (tag : String)
      (settings : List (String × JsVal)) (children : List ElementorElement)
      (classes : List String) (styles : List (String × String))
      (content : Option String) (attributes : List (String × String))

/-- The element id. -/
def ElementorElement.id : ElementorElement → String
  | .mk i _ _ _ _ _ _ _ _ => i

/-- The element type discriminator. -/
def ElementorElement.type : ElementorElement → String
  | .mk _ ty _ _ _ _ _ _ _ => ty

/-- The underlying markup tag, lowercase. -/
def ElementorElement.tag : ElementorElement → String
  | .mk _ _ tg _ _ _ _ _ _ => tg

/-- Decoded settings from data attributes. -/
def ElementorElement.settings : ElementorElement → List (String × JsVal)
  | .mk _ _ _ s _ _ _ _ _ => s

/-- Child elements, in document order. -/
def ElementorElement.children : ElementorElement → List ElementorElement
  | .mk _ _ _ _ ch _ _ _ _ => ch

/-- Class tokens. -/
def ElementorElement.classes : ElementorElement → List String
  | .mk _ _ _ _ _ cl _ _ _ => cl

/-- Inline style declarations. -/
def ElementorElement.styles : ElementorElement → List (String × String)
  | .mk _ _ _ _ _ _ st _ _ => st

/-- Inner markup for text-bearing types. -/
def ElementorElement.content : ElementorElement → Option String
  | .mk _ _ _ _ _ _ _ co _ => co

/-- Remaining non-reserved attributes. -/
def ElementorElement.attributes : ElementorElement → List (String × String)
  | .mk _ _ _ _ _ _ _ _ at2 => at2

/-- Type resolution from classes (elementorParser.ts lines 100-111). -/
def detectType (classes : List String) : String :=
  if classes.contains ("elementor-section") then "section"
  else if classes.contains ("elementor-column") then "column"
  else if classes.contains ("elementor-widget") then
    match classes.find? (fun cls => jsStartsWith cls ("elementor-widget-")) with
    | some w => jsReplaceFirst w ("elementor-widget-") ("")
    | none => "widget"
  else "widget"

/-- Settings extraction (elementorParser.ts lines 113-124): every data-prefixed
attribute, stripped of the prefix, JSON-decoded with raw-string fallback. -/
def settingsOf (n : DomNode) : List (String × JsVal) :=
  n.attrs.foldl
    (fun acc a =>
      if jsStartsWith a.fst ("data-") then
        upsertJ acc (jsReplaceFirst a.fst ("data-") (""))
          (match jsJsonParse a.snd with
           | some j => j
           | none => JsVal.str a.snd)
      else acc) []

/-- Inline style decoding (elementorParser.ts lines 127-136): split the style
attribute on semicolons, split each segment on colons, trim all parts, keep
the first part as property and the second as value when both are nonempty. -/
def parseStyleAttr (styleAttr : String) : List (String × String) :=
  (jsSplitChar ';' styleAttr.data).foldl
    (fun styles seg =>
      match (jsSplitChar ':' seg).map trimChars with
      | property :: value :: _ =>
        if !property.isEmpty && !value.isEmpty then
          upsertS styles (strOf property) (strOf value)
        else styles
      | _ => styles) []

/-- The styles of a node: decoded from a present, nonempty style attribute. -/
def stylesOf (n : DomNode) : List (String × String) :=
  match getAttr n ("style") with
  | some sa => if sa != "" then parseStyleAttr sa else []
  | none => []

/-- Content extraction (elementorParser.ts lines 139-142): inner markup only
for types mentioning text or heading. -/
def contentOf (n : DomNode) (ty : String) : Option String :=
  if jsIncludes ty ("text") || jsIncludes ty ("heading") then some n.innerHTML
  else none

/-- Remaining attributes (elementorParser.ts lines 145-150). -/
def plainAttrsOf (n : DomNode) : List (String × String) :=
  n.attrs.filter
    (fun a => !(jsStartsWith a.fst ("data-")) && a.fst != "style" &&
      a.fst != "class" && a.fst != "id")

mutual

/-- `parseElementorElements` (elementorParser.ts lines 89-169).  The counter
threads the fresh-id supply that models `Math.random`-generated ids for
nodes lacking one; all other fields are deterministic in the input node. -/
def parseElementorElements (el : DomNode) (ctr : Nat) :
    List ElementorElement × Nat :=
  match el with
  | DomNode.mk _ _ _ kids => parseElemKids kids ctr

/-- The forEach over `:scope > .elementor-element` matches: direct children
carrying the element marker class are parsed (grandchildren first, so the
element is appended complete); others are skipped entirely. -/
def parseElemKids : List DomNode → Nat → List ElementorElement × Nat
  | [], ctr => ([], ctr)
  | k :: ks, ctr =>
    if (classListOf k).contains ("elementor-element") then
      let idp : String × Nat :=
        if idOf k != "" then (idOf k, ctr)
        else ("elementor-gen" ++ toString ctr, ctr + 1)
      let ty := detectType (classListOf k)
      let sub := parseElementorElements k idp.snd
      let e := ElementorElement.mk idp.fst ty k.tagName.toLower (settingsOf k)
        sub.fst (classListOf k) (stylesOf k) (contentOf k ty) (plainAttrsOf k)
      let rest := parseElemKids ks sub.snd
      (e :: rest.fst, rest.snd)
    else parseElemKids ks ctr

end

/-- The two failure classes of the pipeline (spec section 7): transport
failures surfaced verbatim, and the missing-builder-root domain failure. -/
inductive PipelineError where
  | fetch (msg : String)
  | notFound (msg : String)
deriving DecidableEq

/-- `ParsedElementorPage` (elementorParser.ts lines 19-23). -/
structure ParsedElementorPage where
  title : String
  elements : List ElementorElement
  globalStyles : List (String × String)

/-- The message of the missing-root error (elementorParser.ts line 45). -/
def notFoundMsg : String := "No Elementor content found on the page"

/-- `parseElementorPage` (elementorParser.ts lines 28-63).  The awaited fetch
and DOM decode are collaborators, so the input is their outcome; the
`try`/`catch` rethrows errors unchanged, so a fetch failure propagates as
itself and the missing-root `throw` is the only parser-raised error. -/
def parseElementorPage (fetched : Except String HtmlDocument) :
    Except PipelineError ParsedElementorPage :=
  match fetched with
  | .error m => .error (.fetch m)
  | .ok doc =>
    let title := if doc.title != "" then doc.title else "Untitled Page"
    match querySelectorClass doc.root ("elementor") with
    | none => .error (.notFound notFoundMsg)
    | some container =>
      let globalStyles := extractGlobalStyles doc
      let elements := (parseElementorElements container 0).fst
      .ok ⟨title, elements, globalStyles⟩

/-! ## reactBricksMapper.ts -/

/-- `ReactBricksComponent` (reactBricksMapper.ts lines 8-15).  The interface
declares name, label, category, props, children and repeaterItems.  The code
generator additionally dereferences `component.tag`, `.type`, `.content`,
`.settings`, `.styles` and `.classes`, which are absent (`undefined`) on
every mapper output; they are modelled by the trailing `Option` fields,
which the mapper always leaves `none`. -/
inductive RBComponent where
  | mk (name : String) (label : String) (category : String)
      (props : List (String × JsVal)) (children : List RBComponent)
      (repeaterItems : List (String × List JsVal))
      (tagF : Option String) (typeF : Option String) (contentF : Option String)
      (settingsF : Option (List (String × JsVal)))
      (stylesF : Option (List (String × String)))
      (classesF : Option (List String))

/-- Component name. -/
def RBComponent.name : RBComponent → String
  | .mk n _ _ _ _ _ _ _ _ _ _ _ => n

/-- Component label. -/
def RBComponent.label : RBComponent → String
  | .mk _ l _ _ _ _ _ _ _ _ _ _ => l

/-- Component category. -/
def RBComponent.category : RBComponent → String
  | .mk _ _ c _ _ _ _ _ _ _ _ _ => c

/-- Component props. -/
def RBComponent.props : RBComponent → List (String × JsVal)
  | .mk _ _ _ p _ _ _ _ _ _ _ _ => p

/-- Component children. -/
def RBComponent.children : RBComponent → List RBComponent
  | .mk _ _ _ _ ch _ _ _ _ _ _ _ => ch

/-- Repeater items. -/
def RBComponent.repeaterItems : RBComponent → List (String × List JsVal)
  | .mk _ _ _ _ _ r _ _ _ _ _ _ => r

/-- The duck-typed `component.tag` read by the generator. -/
def RBComponent.tagF : RBComponent → Option String
  | .mk _ _ _ _ _ _ tg _ _ _ _ _ => tg

/-- The duck-typed `component.type` read by the generator. -/
def RBComponent.typeF : RBComponent → Option String
  | .mk _ _ _ _ _ _ _ ty _ _ _ _ => ty

/-- The duck-typed `component.content` read by the generator. -/
def RBComponent.contentF : RBComponent → Option String
  | .mk _ _ _ _ _ _ _ _ co _ _ _ => co

/-- The duck-typed `component.settings` read by the generator. -/
def RBComponent.settingsF : RBComponent → Option (List (String × JsVal))
  | .mk _ _ _ _ _ _ _ _ _ se _ _ => se

/-- The duck-typed `component.styles` read by the generator. -/
def RBComponent.stylesF : RBComponent → Option (List (String × String))
  | .mk _ _ _ _ _ _ _ _ _ _ st _ => st

/-- The duck-typed `component.classes` read by the generator. -/
def RBComponent.classesF : RBComponent → Option (List String)
  | .mk _ _ _ _ _ _ _ _ _ _ _ cl => cl

/-- In-place mutation of name and label, as the per-type mappers perform. -/
def RBComponent.withNameLabel (c : RBComponent) (n l : String) : RBComponent :=
  match c with
  | .mk _ _ cat p ch rep tg ty co se st cl => .mk n l cat p ch rep tg ty co se st cl

/-- In-place mutation of props. -/
def RBComponent.withProps (c : RBComponent) (p : List (String × JsVal)) :
    RBComponent :=
  match c with
  | .mk n l cat _ ch rep tg ty co se st cl => .mk n l cat p ch rep tg ty co se st cl

/-- In-place mutation of children. -/
def RBComponent.withChildren (c : RBComponent) (ch : List RBComponent) :
    RBComponent :=
  match c with
  | .mk n l cat p _ rep tg ty co se st cl => .mk n l cat p ch rep tg ty co se st cl

/-- `elementorTypeToComponentName` (reactBricksMapper.ts lines 86-90). -/
def elementorTypeToComponentName (ty : String) : String :=
  jsReplaceFirst (jsReplaceFirst ty ("elementor-") ("")) ("widget-") ("") ++ "-block"

/-- `elementorTypeToComponentLabel` (reactBricksMapper.ts lines 95-102). -/
def elementorTypeToComponentLabel (ty : String) : String :=
  let baseType := jsReplaceFirst (jsReplaceFirst ty ("elementor-") ("")) ("widget-") ("")
  String.intercalate " " ((jsSplitChar '-' baseType.data).map (fun w => capFirst (strOf w)))

/-- `determineCategoryFromType` (reactBricksMapper.ts lines 107-116). -/
def determineCategoryFromType (ty : String) : String :=
  if ty == "section" then "Layout"
  else if ty == "column" then "Layout"
  else if jsIncludes ty ("heading") then "Typography"
  else if jsIncludes ty ("text") then "Typography"
  else if jsIncludes ty ("image") || jsIncludes ty ("video") then "Media"
  else if jsIncludes ty ("button") then "Call to Action"
  else if jsIncludes ty ("form") then "Forms"
  else "Other"

/-- A `TailwindColor` as the JS object value stored into props. -/
def twToJs (t : TailwindColor) : JsVal :=
  JsVal.obj [(("color"), JsVal.str t.color), (("className"), JsVal.str t.className)]

/-- `mapElementorSettingsToProps` (reactBricksMapper.ts lines 121-167):
the baseline props (white background, normal paddings) with style-driven
overrides.  Note the lookups use the camel-case keys exactly as written in
the source (`styles.backgroundColor` and so on). -/
def mapElementorSettingsToProps (e : ElementorElement) : List (String × JsVal) :=
  let props0 : List (String × JsVal) :=
    [(("backgroundColor"),
       JsVal.obj [(("color"), JsVal.str ("white")), (("className"), JsVal.str ("bg-white"))]),
     (("paddingTop"), JsVal.str ("normal")),
     (("paddingBottom"), JsVal.str ("normal"))]
  let bg := lookupS e.styles ("backgroundColor")
  let p1 :=
    if sTruthy bg then
      upsertJ props0 ("backgroundColor") (twToJs (mapBackgroundColor (bg.getD "")))
    else props0
  let pad := lookupS e.styles ("padding")
  let p2 :=
    if sTruthy pad then upsertJ p1 ("padding") (JsVal.str (mapPadding (pad.getD "")))
    else
      let pt := lookupS e.styles ("paddingTop")
      let q1 :=
        if sTruthy pt then upsertJ p1 ("paddingTop") (JsVal.str (mapSinglePadding (pt.getD "")))
        else p1
      let pb := lookupS e.styles ("paddingBottom")
      let q2 :=
        if sTruthy pb then upsertJ q1 ("paddingBottom") (JsVal.str (mapSinglePadding (pb.getD "")))
        else q1
      let pl := lookupS e.styles ("paddingLeft")
      let q3 :=
        if sTruthy pl then upsertJ q2 ("paddingLeft") (JsVal.str (mapSinglePadding (pl.getD "")))
        else q2
      let pr := lookupS e.styles ("paddingRight")
      if sTruthy pr then upsertJ q3 ("paddingRight") (JsVal.str (mapSinglePadding (pr.getD "")))
      else q3
  let mg := lookupS e.styles ("margin")
  let p3 := if sTruthy mg then upsertJ p2 ("margin") (JsVal.str (mapMargin (mg.getD ""))) else p2
  let bt := lookupS e.styles ("borderTop")
  let bd := lookupS e.styles ("border")
  let p4 :=
    if sTruthy bt || sTruthy bd then upsertJ p3 ("borderTop") (JsVal.bool (sTruthy bt)) else p3
  let bb := lookupS e.styles ("borderBottom")
  let p5 :=
    if sTruthy bb || sTruthy bd then upsertJ p4 ("borderBottom") (JsVal.bool (sTruthy bb)) else p4
  let ta := lookupS e.styles ("textAlign")
  if sTruthy ta then upsertJ p5 ("textAlign") (JsVal.str (ta.getD "")) else p5

/-- JS `Number()` coercion of a settings value (common cases). -/
def jsValToNumber : JsVal → Option ℚ
  | .num q => some q
  | .str s => jsNumber s
  | .bool b => some (if b then 1 else 0)
  | .null => some 0
  | .arr [] => some 0
  | .arr [x] => jsValToNumber x
  | .arr _ => none
  | .obj _ => none

/-- Decimal rendering of a rational (JS number-to-string for the terminating
decimals produced by the parsers; twenty fractional digits of fuel). -/
def fracDigits (fuel : Nat) (num den : Nat) : List Char :=
  match fuel with
  | 0 => []
  | fuel + 1 =>
    if num == 0 then []
    else Char.ofNat (48 + num * 10 / den) :: fracDigits fuel (num * 10 % den) den

/-- JS string conversion of a number. -/
def qToDisplay (q : ℚ) : String :=
  let sgn : String := if q < 0 then "-" else ""
  let n := q.num.natAbs
  let d := q.den
  sgn ++ toString (n / d) ++
    (if n % d == 0 then "" else "." ++ strOf (fracDigits 20 (n % d) d))

mutual

/-- JS string conversion (template-literal interpolation) of a value. -/
def jsValToDisplay : JsVal → String
  | .str s => s
  | .num q => qToDisplay q
  | .bool b => if b then "true" else "false"
  | .null => "null"
  | .arr l => String.intercalate "," (jsValToDisplayL l)
  | .obj _ => "[object Object]"

/-- Display strings of a list of values. -/
def jsValToDisplayL : List JsVal → List String
  | [] => []
  | v :: vs => jsValToDisplay v :: jsValToDisplayL vs

end

/-- Strict equality of an optional value against a string literal. -/
def isStrEq (o : Option JsVal) (s : String) : Bool :=
  match o with
  | some (.str v) => v == s
  | _ => false

/-- Props refinement of `mapSection` (reactBricksMapper.ts lines 172-202). -/
def sectionProps (e : ElementorElement) (props : List (String × JsVal)) :
    List (String × JsVal) :=
  let p1 :=
    if jTruthy (lookupJ e.settings ("structure")) then
      upsertJ props ("structure") ((lookupJ e.settings ("structure")).getD JsVal.null)
    else props
  let p2 :=
    if e.classes.contains ("elementor-section-full-width") then
      upsertJ p1 ("width") (JsVal.str ("full"))
    else p1
  let bgo := lookupS e.styles ("backgroundImage")
  if sTruthy bgo && jsIncludes (bgo.getD "") ("url(") then
    match matchUrlCapture (bgo.getD "") with
    | some u =>
      if u != "" then
        upsertJ p2 ("backgroundImage")
          (JsVal.obj
            [(("source"), JsVal.obj [(("src"), JsVal.str u)]),
             (("position"),
               JsVal.str
                 (if sTruthy (lookupS e.styles ("backgroundPosition")) then
                    (lookupS e.styles ("backgroundPosition")).getD ""
                  else "center center"))])
      else p2
    | none => p2
  else p2

/-- `mapSection` (reactBricksMapper.ts lines 172-202). -/
def mapSection (e : ElementorElement) (c : RBComponent) : RBComponent :=
  (c.withNameLabel ("section-block") ("Section")).withProps (sectionProps e c.props)

/-- Props refinement of `mapColumn` (reactBricksMapper.ts lines 207-221). -/
def columnProps (e : ElementorElement) (props : List (String × JsVal)) :
    List (String × JsVal) :=
  if jTruthy (lookupJ e.settings ("_column_size")) then
    upsertJ props ("width")
      (JsVal.str (calculateColumnWidthJs
        (jsValToNumber ((lookupJ e.settings ("_column_size")).getD JsVal.null))))
  else props

/-- `mapColumn` (reactBricksMapper.ts lines 207-221); the `parentType` hint
is accepted and unused, as in the source. -/
def mapColumn (e : ElementorElement) (c : RBComponent) (_parentType : Option String) :
    RBComponent :=
  (c.withNameLabel ("column-block") ("Column")).withProps (columnProps e c.props)

/-- Props refinement of `mapHeading` (reactBricksMapper.ts lines 226-252). -/
def headingProps (e : ElementorElement) (props : List (String × JsVal)) :
    List (String × JsVal) :=
  let p1 := upsertJ props ("tag") (JsVal.str (if e.tag != "" then e.tag else "h2"))
  let p2 :=
    match e.content with
    | some cont =>
      if cont != "" then
        upsertJ p1 ("title") (JsVal.obj [(("value"), JsVal.str (cleanHtmlContent cont))])
      else p1
    | none => p1
  let fs := lookupS e.styles ("fontSize")
  let p3 :=
    if sTruthy fs then upsertJ p2 ("size") (JsVal.str (mapFontSize (fs.getD ""))) else p2
  let fw := lookupS e.styles ("fontWeight")
  if sTruthy fw then
    upsertJ p3 ("extraBoldTitle")
      (JsVal.bool ((fw.getD "") == "bold" || oGeI (jsParseInt (fw.getD "")) 700))
  else p3

/-- `mapHeading` (reactBricksMapper.ts lines 226-252). -/
def mapHeading (e : ElementorElement) (c : RBComponent) : RBComponent :=
  (c.withNameLabel ("heading-block") ("Heading")).withProps (headingProps e c.props)

/-- Props refinement of `mapTextEditor` (reactBricksMapper.ts lines 257-272). -/
def textEditorProps (e : ElementorElement) (props : List (String × JsVal)) :
    List (String × JsVal) :=
  match e.content with
  | some cont =>
    if cont != "" then
      upsertJ props ("text") (JsVal.obj [(("value"), JsVal.str (cleanHtmlContent cont))])
    else props
  | none => props

/-- `mapTextEditor` (reactBricksMapper.ts lines 257-272). -/
def mapTextEditor (e : ElementorElement) (c : RBComponent) : RBComponent :=
  (c.withNameLabel ("text-block") ("Text")).withProps (textEditorProps e c.props)

/-- Props refinement of `mapImage` (reactBricksMapper.ts lines 277-326). -/
def imageProps (e : ElementorElement) (props : List (String × JsVal)) :
    List (String × JsVal) :=
  let fromContent : String :=
    match e.content with
    | some cont => if cont != "" then (matchImgSrc cont).getD "" else ""
    | none => ""
  let imageUrl : String :=
    if fromContent == "" then
      match lookupJ e.settings ("image") with
      | some (.obj f) =>
        match lookupJ f ("url") with
        | some u => if jsTruthy u then jsValToDisplay u else ""
        | none => ""
      | _ => ""
    else fromContent
  let altText : String :=
    match lookupJ e.settings ("alt_text") with
    | some a => if jsTruthy a then jsValToDisplay a else ""
    | none => ""
  let p1 :=
    if imageUrl != "" then
      upsertJ props ("imageSource")
        (JsVal.obj [(("src"), JsVal.str imageUrl), (("alt"), JsVal.str altText)])
    else props
  let p2 :=
    if jTruthy (lookupJ e.settings ("image_size")) then
      upsertJ p1 ("size") ((lookupJ e.settings ("image_size")).getD JsVal.null)
    else p1
  let p3 :=
    if sTruthy (lookupS e.styles ("borderRadius")) ||
        e.classes.any (fun cls => jsIncludes cls ("rounded")) then
      upsertJ p2 ("isRounded") (JsVal.bool true)
    else p2
  if sTruthy (lookupS e.styles ("boxShadow")) ||
      e.classes.any (fun cls => jsIncludes cls ("shadow")) then
    upsertJ p3 ("hasShadow") (JsVal.bool true)
  else p3

/-- `mapImage` (reactBricksMapper.ts lines 277-326). -/
def mapImage (e : ElementorElement) (c : RBComponent) : RBComponent :=
  (c.withNameLabel ("image-block") ("Image")).withProps (imageProps e c.props)

/-- Props refinement of `mapButton` (reactBricksMapper.ts lines 331-373). -/
def buttonProps (e : ElementorElement) (props : List (String × JsVal)) :
    List (String × JsVal) :=
  let p1 :=
    match e.content with
    | some cont =>
      if cont != "" then
        match matchGtTextLt cont with
        | some t => if t != "" then upsertJ props ("text") (JsVal.str (jsTrim t)) else props
        | none => props
      else props
    | none => props
  let p2 :=
    match e.content with
    | some cont =>
      match matchHref cont with
      | some h => if h != "" then upsertJ p1 ("href") (JsVal.str h) else p1
      | none => p1
    | none => p1
  let p3 :=
    if e.classes.contains ("elementor-button-link") then
      upsertJ p2 ("type") (JsVal.str ("link"))
    else if e.classes.contains ("elementor-button-outline") then
      upsertJ p2 ("type") (JsVal.str ("outline"))
    else upsertJ p2 ("type") (JsVal.str ("solid"))
  let bg := lookupS e.styles ("backgroundColor")
  let p4 := if sTruthy bg then upsertJ p3 ("buttonColor") (mapButtonColor (bg.getD "")) else p3
  if e.classes.contains ("elementor-size-lg") || e.classes.contains ("elementor-size-xl") then
    upsertJ p4 ("isBigButton") (JsVal.bool true)
  else p4

/-- `mapButton` (reactBricksMapper.ts lines 331-373). -/
def mapButton (e : ElementorElement) (c : RBComponent) : RBComponent :=
  (c.withNameLabel ("button-block") ("Button")).withProps (buttonProps e c.props)

/-- Props refinement of `mapVideo` (reactBricksMapper.ts lines 378-432):
the else-if chain over the content, the hosted-file branch, and the final
streaming-or-file assignment. -/
def videoProps (e : ElementorElement) (props : List (String × JsVal)) :
    List (String × JsVal) :=
  let contentHas := fun (pat : String) =>
    match e.content with
    | some cont => jsIncludes cont pat
    | none => false
  if contentHas ("youtube") then
    let videoId :=
      (match e.content with
       | some cont => matchYoutubeId cont
       | none => none).getD ""
    if videoId != "" then
      upsertJ (upsertJ (upsertJ props ("type") (JsVal.str ("streaming")))
        ("platform") (JsVal.str ("youtube"))) ("videoId") (JsVal.str videoId)
    else upsertJ props ("type") (JsVal.str ("file"))
  else if contentHas ("vimeo") then
    match
      (match e.content with
       | some cont => matchVimeoId cont
       | none => none) with
    | some vid =>
      if vid != "" then
        upsertJ (upsertJ (upsertJ props ("type") (JsVal.str ("streaming")))
          ("platform") (JsVal.str ("vimeo"))) ("videoId") (JsVal.str vid)
      else upsertJ props ("type") (JsVal.str ("file"))
    | none => upsertJ props ("type") (JsVal.str ("file"))
  else if contentHas ("<video") || isStrEq (lookupJ e.settings ("video_type")) ("hosted") then
    let p1 :=
      match
        (match e.content with
         | some cont => matchVideoFileUrl cont
         | none => none) with
      | some url =>
        if url != "" then
          upsertJ props ("videoFile")
            (JsVal.obj [(("name"), JsVal.str ("video")), (("url"), JsVal.str url)])
        else props
      | none => props
    upsertJ p1 ("type") (JsVal.str ("file"))
  else upsertJ props ("type") (JsVal.str ("file"))

/-- `mapVideo` (reactBricksMapper.ts lines 378-432). -/
def mapVideo (e : ElementorElement) (c : RBComponent) : RBComponent :=
  (c.withNameLabel ("video-block") ("Video")).withProps (videoProps e c.props)

/-- Props refinement of `mapGenericWidget` (reactBricksMapper.ts lines 437-447). -/
def genericWidgetProps (e : ElementorElement) (props : List (String × JsVal)) :
    List (String × JsVal) :=
  match e.content with
  | some cont => if cont != "" then upsertJ props ("content") (JsVal.str cont) else props
  | none => props

/-- `mapGenericWidget` (reactBricksMapper.ts lines 437-447). -/
def mapGenericWidget (e : ElementorElement) (c : RBComponent) : RBComponent :=
  c.withProps (genericWidgetProps e c.props)

mutual

/-- `mapElementorToReactBricks` (reactBricksMapper.ts lines 20-81): the base
component, the per-type switch (with the generic-widget default), then the
children mapping with the element's own type as the `parentType` hint. -/
def mapElementorToReactBricks (e : ElementorElement) (parentType : Option String) :
    RBComponent :=
  match e with
  | ElementorElement.mk eid ety etag esettings echildren eclasses estyles econtent eattrs =>
    let el := ElementorElement.mk eid ety etag esettings echildren eclasses estyles
      econtent eattrs
    let base := RBComponent.mk (elementorTypeToComponentName ety)
      (elementorTypeToComponentLabel ety) (determineCategoryFromType ety)
      (mapElementorSettingsToProps el) [] [] none none none none none none
    let comp :=
      if ety == "section" then mapSection el base
      else if ety == "column" then mapColumn el base parentType
      else if ety == "heading" then mapHeading el base
      else if ety == "text-editor" then mapTextEditor el base
      else if ety == "image" then mapImage el base
      else if ety == "button" then mapButton el base
      else if ety == "video" then mapVideo el base
      else if jsStartsWith ety ("widget-") then mapGenericWidget el base
      else base
    if echildren.length > 0 then comp.withChildren (mapElementorChildren echildren ety)
    else comp

/-- The `element.children.map(child => mapElementorToReactBricks(child,
element.type))` recursion, written as explicit list recursion. -/
def mapElementorChildren : List ElementorElement → String → List RBComponent
  | [], _ => []
  | c :: cs, ty => mapElementorToReactBricks c (some ty) :: mapElementorChildren cs ty

end

/-! ## codeGenerator.ts (the complete file, src/unnamed/part_002)

Generated-code templates are Lean string literals; brace characters are
written as hex escapes, single quotes as hex escape 27, backticks as hex
escape 60.  The import accumulator (`Set<string>`, insertion-ordered) is an
explicit ordered list with membership-checked append; the default
`new Set()` argument is a fresh empty list at each call. -/

/-- `Set.add`: append when not already present (insertion order kept). -/
def addImport (imports : List String) (s : String) : List String :=
  if imports.contains s then imports else imports ++ [s]

/-- Base import line (part_002 line 39). -/
def impReact : String := "import React from \x27react\x27"

/-- Base import line (part_002 line 40). -/
def impClassNames : String := "import classNames from \x27classnames\x27"

/-- Base import line (part_002 line 41). -/
def impTypes : String := "import \x7b types \x7d from \x27react-bricks/rsc\x27"

/-- Section-family import (part_002 line 45). -/
def impLinkRichImageRepeater : String :=
  "import \x7b Link, RichText, Image, Repeater \x7d from \x27react-bricks/rsc\x27"

/-- Section-family import (part_002 line 46). -/
def impSection : String :=
  "import Section from \x27@reactbricksui/shared/components/Section\x27"

/-- Section-family import (part_002 line 47). -/
def impContainer : String :=
  "import Container from \x27@reactbricksui/shared/components/Container\x27"

/-- Section-family import (part_002 line 48). -/
def impLayoutSideProps : String :=
  "import \x7b sectionDefaults, backgroundSideGroup, paddingBordersSideGroup \x7d from \x27@reactbricksui/LayoutSideProps\x27"

/-- Section-family import (part_002 line 49). -/
def impColorsAll : String :=
  "import \x7b textColors, buttonColors, highlightBgColors \x7d from \x27@reactbricksui/colors\x27"

/-- Shared photos import (part_002 lines 50 and 60). -/
def impPhotos : String :=
  "import \x7b photos \x7d from \x27@reactbricksui/shared/defaultImages\x27"

/-- Text-family import (part_002 line 54). -/
def impRichText : String := "import \x7b RichText \x7d from \x27react-bricks/rsc\x27"

/-- Text-family import (part_002 line 55). -/
def impTextColors : String := "import \x7b textColors \x7d from \x27@reactbricksui/colors\x27"

/-- Image-family import (part_002 line 59). -/
def impImage : String := "import \x7b Image \x7d from \x27react-bricks/rsc\x27"

/-- Video-family import (part_002 line 64). -/
def impVideo : String := "import Video from \x27@reactbricksui/shared/components/Video\x27"

/-- Button-family import (part_002 line 68). -/
def impButtonColors : String := "import \x7b buttonColors \x7d from \x27@reactbricksui/colors\x27"

/-- Button-family import (part_002 line 69). -/
def impLink : String := "import \x7b Link \x7d from \x27react-bricks/rsc\x27"

/-- Repeater import (part_002 line 74). -/
def impRepeater : String := "import \x7b Repeater \x7d from \x27react-bricks/rsc\x27"

/-- The heading-family test `component.type === 'heading' ||
component.name.includes('heading')` used throughout the generator. -/
def famHeading (c : RBComponent) : Bool :=
  c.typeF == some ("heading") || jsIncludes c.name ("heading")

/-- The text-family test. -/
def famText (c : RBComponent) : Bool :=
  c.typeF == some ("text-editor") || jsIncludes c.name ("text")

/-- The image-family test. -/
def famImage (c : RBComponent) : Bool :=
  c.typeF == some ("image") || jsIncludes c.name ("image")

/-- The button-family test. -/
def famButton (c : RBComponent) : Bool :=
  c.typeF == some ("button") || jsIncludes c.name ("button")

/-- The section-family test. -/
def famSection (c : RBComponent) : Bool :=
  c.typeF == some ("section") || jsIncludes c.name ("section")

/-- The video-family test. -/
def famVideo (c : RBComponent) : Bool :=
  c.typeF == some ("video") || jsIncludes c.name ("video")

mutual

/-- `addRequiredImports` (part_002 lines 34-81): the always-present base
imports, the per-family groups, the repeater check, then the recursive
union over children. -/
def addRequiredImports (c : RBComponent) (imports : List String) : List String :=
  match c with
  | RBComponent.mk nm lbl cat props kids rep tg ty co se st cl =>
    let comp := RBComponent.mk nm lbl cat props kids rep tg ty co se st cl
    let i0 := addImport (addImport (addImport imports impReact) impClassNames) impTypes
    let i1 :=
      if famSection comp then
        addImport (addImport (addImport (addImport (addImport (addImport i0
          impLinkRichImageRepeater) impSection) impContainer) impLayoutSideProps)
          impColorsAll) impPhotos
      else i0
    let i2 :=
      if jsIncludes nm ("text") || jsIncludes nm ("heading") || ty == some ("heading") ||
          ty == some ("text-editor") then
        addImport (addImport i1 impRichText) impTextColors
      else i1
    let i3 := if famImage comp then addImport (addImport i2 impImage) impPhotos else i2
    let i4 := if famVideo comp then addImport i3 impVideo else i3
    let i5 :=
      if famButton comp then addImport (addImport i4 impButtonColors) impLink else i4
    let i6 := if rep.length > 0 then addImport i5 impRepeater else i5
    if kids.length > 0 then addRequiredImportsL kids i6 else i6

/-- The forEach over children of `addRequiredImports`. -/
def addRequiredImportsL : List RBComponent → List String → List String
  | [], i => i
  | k :: ks, i => addRequiredImportsL ks (addRequiredImports k i)

end

/-- `generateImports` (part_002 lines 86-88). -/
def generateImportsStr (imports : List String) : String :=
  String.intercalate "\n" (dedupStrings imports) ++ "\n\n"

/-- `determinePropType` (part_002 lines 1058-1066). -/
def determinePropType : JsVal → String
  | .null => "any"
  | .bool _ => "boolean"
  | .num _ => "number"
  | .str _ => "string"
  | .arr _ => "any[]"
  | .obj _ => "Record<string, any>"

/-- The known-prop exclusion list of the interface emission
(part_002 lines 145-147). -/
def knownPropsA : List String :=
  ["backgroundColor", "borderTop", "borderBottom", "paddingTop", "paddingBottom",
   "title", "text", "imageSource", "tag", "extraBoldTitle", "textAlign",
   "isRounded", "hasShadow", "href", "buttonColor", "type", "isBigButton"]

/-- The known-prop exclusion list of the destructuring emission
(part_002 lines 205-208). -/
def knownPropsB : List String :=
  knownPropsA ++ ["imageSide", "bigImage", "mobileImageTop", "verticalAlign",
    "mediaType", "buttons"]

/-- The forEach over `Object.keys(component.props)` emitting interface lines
for props outside the known set (part_002 lines 144-152). -/
def extraPropsInterfaceCode (props : List (String × JsVal)) : String :=
  props.foldl
    (fun code p =>
      if knownPropsA.contains p.fst then code
      else code ++ "  " ++ p.fst ++ "?: " ++ determinePropType p.snd ++ ";\n") ""

/-- The forEach emitting destructured extra props (part_002 lines 204-211). -/
def extraPropsDestructureCode (props : List (String × JsVal)) : String :=
  props.foldl
    (fun code p =>
      if knownPropsB.contains p.fst then code
      else code ++ "  " ++ p.fst ++ ",\n") ""

/-- A hexadecimal digit character (lowercase). -/
def hexDigitChar (n : Nat) : Char :=
  if n < 10 then Char.ofNat (48 + n) else Char.ofNat (87 + n)

/-- One character of `JSON.stringify` string escaping. -/
def jsonEscChar (c : Char) : List Char :=
  if c == cDq then [cBs, cDq]
  else if c == cBs then [cBs, cBs]
  else if c == '\n' then [cBs, 'n']
  else if c == '\r' then [cBs, 'r']
  else if c == '\t' then [cBs, 't']
  else if c == '\x08' then [cBs, 'b']
  else if c == '\x0c' then [cBs, 'f']
  else if c.toNat < 32 then
    [cBs, 'u', '0', '0', hexDigitChar (c.toNat / 16), hexDigitChar (c.toNat % 16)]
  else [c]

/-- `JSON.stringify` of a string value. -/
def jsonStringifyStr (s : String) : String :=
  strOf (cDq :: (s.data.map jsonEscChar).flatten ++ [cDq])

/-- JS `content.replace` escaping backticks with a backslash. -/
def escBackticks (s : String) : String :=
  strOf ((s.data.map
    (fun c => if c == Char.ofNat 96 then [cBs, Char.ofNat 96] else [c])).flatten)

/-- An optional string field, JS-coerced to a display string with a default
for falsy values (the `x || 'dflt'` idiom on prop and settings lookups). -/
def jDisplayOr (o : Option JsVal) (dflt : String) : String :=
  match o with
  | some v => if jsTruthy v then jsValToDisplay v else dflt
  | none => dflt

/-- The `o?.image?.url`-style nested url lookup on an optional settings
record, `none` when any step is missing or falsy. -/
def nestedUrl (se : Option (List (String × JsVal))) (k : String) : Option String :=
  match se with
  | some fields =>
    match lookupJ fields k with
    | some (.obj f) =>
      match lookupJ f ("url") with
      | some u => if jsTruthy u then some (jsValToDisplay u) else none
      | none => none
    | _ => none
  | none => none

/-- One child of the section content side (part_002 lines 354-444): headings
and texts become rich-text blocks with the cleaned literal baked in, buttons
become links with extracted label and href, other children emit nothing. -/
def sectionChildJSX (child : RBComponent) : String :=
  if famHeading child then
    let headingContent :=
      match child.contentF with
      | some cont => if cont != "" then jsTrim (jsStripTags cont) else "Heading"
      | none => "Heading"
    "            <RichText\n              propName=\"title\"\n              value=\x7b\x7b text: " ++
      jsonStringifyStr headingContent ++
      " \x7d\x7d\n              renderBlock=\x7b(props) => (\n                <h2\n                  className=\x7bclassNames(\n                    \"mt-0 text-2xl leading-7\",\n                    extraBoldTitle ? \"font-extrabold\" : \"font-bold\",\n                    \"mb-4\",\n                    titleColor\n                  )\x7d\n                  \x7b...props.attributes\x7d\n                >\n                  \x7bprops.children\x7d\n                </h2>\n              )\x7d\n              placeholder=\"Type a title...\"\n              allowedFeatures=\x7b[types.RichTextFeatures.Highlight]\x7d\n            />\n"
  else if famText child then
    let textContent :=
      match child.contentF with
      | some cont => if cont != "" then jsTrim (jsStripTags cont) else "Text content"
      | none => "Text content"
    "            <RichText\n              propName=\"text\"\n              value=\x7b\x7b text: " ++
      jsonStringifyStr textContent ++
      " \x7d\x7d\n              renderBlock=\x7b(props) => (\n                <p\n                  className=\x7bclassNames(\n                    \"leading-7 mb-4\",\n                    textColor\n                  )\x7d\n                  \x7b...props.attributes\x7d\n                >\n                  \x7bprops.children\x7d\n                </p>\n              )\x7d\n              placeholder=\"Type content here...\"\n              allowedFeatures=\x7b[\n                types.RichTextFeatures.Bold,\n                types.RichTextFeatures.Link,\n              ]\x7d\n              renderLink=\x7b(\x7b children, href, target, rel \x7d) => (\n                <Link\n                  href=\x7bhref\x7d\n                  target=\x7btarget\x7d\n                  rel=\x7brel\x7d\n                  className=\"inline-block text-sky-500 hover:text-sky-600 hover:-translate-y-px transition-all ease-out duration-150\"\n                >\n                  \x7bchildren\x7d\n                </Link>\n              )\x7d\n            />\n"
  else if famButton child then
    let buttonText :=
      match child.contentF with
      | some cont =>
        if cont != "" then
          match matchSpanText cont with
          | some t => if t != "" then jsTrim t else "Button"
          | none => "Button"
        else "Button"
      | none => "Button"
    let buttonLink :=
      match child.contentF with
      | some cont =>
        if cont != "" then
          match matchHref cont with
          | some h => if h != "" then h else "#"
          | none => "#"
        else "#"
      | none => "#"
    "            <div className=\x7bclassNames(\"flex mt-4\", justifyContentClass)\x7d>\n              <Link\n                href=\"" ++
      buttonLink ++
      "\"\n                className=\x7bclassNames(\n                  \"inline-block px-5 py-3 rounded-md font-bold\",\n                  \"transition-all ease-out duration-150\",\n                  \"text-white bg-blue-600 hover:bg-blue-700\"\n                )\x7d\n              >\n                " ++
      buttonText ++ "\n              </Link>\n            </div>\n"
  else ""

/-- The media side of the section body (part_002 lines 450-489). -/
def sectionImageSideJSX (component : RBComponent) : String :=
  match component.children.find? famImage with
  | none => ""
  | some imageChild =>
    let fromContent :=
      match imageChild.contentF with
      | some cont => if cont != "" then (matchImgSrc cont).getD "" else ""
      | none => ""
    let imageUrl :=
      match nestedUrl imageChild.settingsF ("image") with
      | some u => u
      | none => fromContent
    let altDisplay :=
      match imageChild.settingsF with
      | some se => jDisplayOr (lookupJ se ("alt_text")) ("Image")
      | none => "Image"
    "          <div className=\"w-full md:w-1/2 mt-6 md:mt-0\">\n            <Image\n              propName=\"imageSource\"\n" ++
      (if imageUrl != "" then
        "              source=\x7b\x7b\n                src: \"" ++ imageUrl ++
          "\",\n                alt: \"" ++ altDisplay ++ "\"\n              \x7d\x7d\n"
      else "              source=\x7bimageSource\x7d\n") ++
      "              alt=\"Image\"\n              imageClassName=\x7bclassNames(\n                \x7b \"rounded-lg\": isRounded \x7d,\n                \x7b \"shadow-2xl\": hasShadow \x7d,\n                \x7b \"md:h-[500px] md:max-w-none object-cover\": bigImage \x7d\n              )\x7d\n            />\n          </div>\n"

/-- `generateSectionJSX` (part_002 lines 302-512). -/
def generateSectionJSX (component : RBComponent) : String :=
  let hasChildren := component.children.length > 0
  let hasHeadings := hasChildren && component.children.any famHeading
  let hasText := hasChildren && component.children.any famText
  let hasButtons := hasChildren && component.children.any famButton
  let hasImages := hasChildren && component.children.any famImage
  let hasBgColor :=
    match lookupJ component.props ("backgroundColor") with
    | some (.obj f) => jTruthy (lookupJ f ("className"))
    | _ => false
  let bgImgUrl : Option String :=
    match component.settingsF with
    | some se =>
      if isStrEq (lookupJ se ("background_background")) ("classic") then
        nestedUrl component.settingsF ("background_image")
      else none
    | none => none
  let jsx := "    <Section\n      backgroundColor=\x7bbackgroundColor\x7d\n      borderTop=\x7bborderTop\x7d\n      borderBottom=\x7bborderBottom\x7d\n"
  let jsx := jsx ++
    (match bgImgUrl with
     | some u => "      backgroundImage=\x7b\x7b src: \"" ++ u ++ "\" \x7d\x7d\n"
     | none => "")
  let jsx := jsx ++ "    >\n      <Container paddingTop=\x7bpaddingTop\x7d paddingBottom=\x7bpaddingBottom\x7d>\n"
  let jsx := jsx ++
    (if hasBgColor then
      "        <div className=\x7bclassNames(\n          \"absolute inset-0 opacity-90 z-0\",\n          \x60$\x7bbackgroundColor.className\x7d\x60\n        )\x7d>\n        </div>\n"
    else "")
  let jsx := jsx ++
    (if hasHeadings || hasText || hasButtons || hasImages then
      "        <div className=\"relative flex flex-col md:flex-row items-center\">\n          <div className=\x7bclassNames(\n            \"w-full md:w-1/2 flex flex-col\",\n            textAlignClass\n          )\x7d>\n" ++
        (if hasChildren then String.join (component.children.map sectionChildJSX) else "") ++
        "          </div>\n" ++
        (if hasImages then sectionImageSideJSX component else "") ++
        "        </div>\n"
    else
      "        <div className=\"relative flex flex-wrap\">\n" ++
        (match component.contentF with
         | some cont =>
           if cont != "" then
             "          <div dangerouslySetInnerHTML=\x7b\x7b __html: \x60\n            " ++
               escBackticks cont ++ "\n          \x60 \x7d\x7d />\n"
           else "          \x7b/* Section content */\x7d\n"
         | none => "          \x7b/* Section content */\x7d\n") ++
        "        </div>\n")
  jsx ++ "      </Container>\n    </Section>\n"

/-- One child preview of the column body (part_002 lines 528-549). -/
def columnChildJSX (idx : Nat) (child : RBComponent) : String :=
  if famHeading child then
    let headingContent :=
      match child.contentF with
      | some cont =>
        if cont != "" then jsTrim (jsStripTags cont) else "Heading " ++ toString (idx + 1)
      | none => "Heading " ++ toString (idx + 1)
    let headingTag :=
      match child.tagF with
      | some tg => if tg != "" then tg else "h2"
      | none => "h2"
    "        <" ++ headingTag ++ " className=\"font-bold\">" ++ headingContent ++
      "</" ++ headingTag ++ ">\n"
  else if famText child then
    let textContent :=
      match child.contentF with
      | some cont =>
        if cont != "" then jsTrim (jsStripTags cont) else "Text content " ++ toString (idx + 1)
      | none => "Text content " ++ toString (idx + 1)
    "        <p>" ++ textContent ++ "</p>\n"
  else
    match child.contentF with
    | some cont =>
      if cont != "" then
        "        <div dangerouslySetInnerHTML=\x7b\x7b __html: \x60\n          " ++
          escBackticks cont ++ "\n        \x60 \x7d\x7d />\n"
      else
        "        \x7b/* Child component " ++ toString (idx + 1) ++ " (" ++
          (match child.typeF with
           | some ty => if ty != "" then ty else child.name
           | none => child.name) ++ ") */\x7d\n"
    | none =>
      "        \x7b/* Child component " ++ toString (idx + 1) ++ " (" ++
        (match child.typeF with
         | some ty => if ty != "" then ty else child.name
         | none => child.name) ++ ") */\x7d\n"

/-- `generateColumnJSX` (part_002 lines 517-563). -/
def generateColumnJSX (component : RBComponent) : String :=
  let width := jDisplayOr (lookupJ component.props ("width")) ("full")
  let jsx := "    <div className=\"w-full md:w-" ++ width ++ " p-4\">\n"
  let jsx := jsx ++
    (if component.children.length > 0 then
      "      <div className=\"flex flex-col space-y-4\">\n" ++
        String.join (component.children.enum.map (fun p => columnChildJSX p.fst p.snd)) ++
        "      </div>\n"
    else
      match component.contentF with
      | some cont =>
        if cont != "" then
          "      <div dangerouslySetInnerHTML=\x7b\x7b __html: \x60\n        " ++
            escBackticks cont ++ "\n      \x60 \x7d\x7d />\n"
        else "      \x7b/* Column content */\x7d\n"
      | none => "      \x7b/* Column content */\x7d\n")
  jsx ++ "    </div>\n"

/-- `generateHeadingJSX` (part_002 lines 568-597). -/
def generateHeadingJSX (component : RBComponent) : String :=
  let headingContent :=
    match component.contentF with
    | some cont => if cont != "" then cont else "Heading"
    | none => "Heading"
  let cleanContent := jsTrim (jsStripTags headingContent)
  let tagFromProps := jDisplayOr (lookupJ component.props ("tag")) ("h2")
  let headingTag :=
    match component.tagF with
    | some tg => if tg != "" then tg else tagFromProps
    | none => tagFromProps
  let fontSize :=
    match component.settingsF with
    | some se => jDisplayOr (lookupJ se ("typography_font_size")) ("2xl")
    | none => "2xl"
  "    <RichText\n      propName=\"title\"\n      value=\x7btitle || \x7b text: " ++
    jsonStringifyStr cleanContent ++
    " \x7d\x7d\n      renderBlock=\x7b(props) => (\n        <" ++ headingTag ++
    "\n          className=\x7bclassNames(\n            \"mt-0 text-" ++ fontSize ++
    " leading-7\",\n            extraBoldTitle ? \"font-extrabold\" : \"font-bold\",\n            \"mb-3\",\n            titleColor\n          )\x7d\n          \x7b...props.attributes\x7d\n        >\n          \x7bprops.children\x7d\n        </" ++
    headingTag ++
    ">\n      )\x7d\n      placeholder=\"Type a title...\"\n      allowedFeatures=\x7b[types.RichTextFeatures.Highlight]\x7d\n    />\n"

/-- `generateTextJSX` (part_002 lines 602-642). -/
def generateTextJSX (component : RBComponent) : String :=
  let textContent :=
    match component.contentF with
    | some cont => if cont != "" then cont else "Text content"
    | none => "Text content"
  let cleanContent := jsTrim (jsStripTags textContent)
  let alignFromProps := jDisplayOr (lookupJ component.props ("textAlign")) ("left")
  let textAlign :=
    match component.stylesF with
    | some st =>
      match lookupS st ("textAlign") with
      | some v => if v != "" then v else alignFromProps
      | none => alignFromProps
    | none => alignFromProps
  let alignClass :=
    if textAlign == "center" then "text-center"
    else if textAlign == "right" then "text-right"
    else "text-left"
  "    <RichText\n      propName=\"text\"\n      value=\x7btext || \x7b text: " ++
    jsonStringifyStr cleanContent ++
    " \x7d\x7d\n      renderBlock=\x7b(props) => (\n        <p\n          className=\x7bclassNames(\n            \"leading-7 mb-3\",\n            \"" ++
    alignClass ++
    "\",\n            textColor\n          )\x7d\n          \x7b...props.attributes\x7d\n        >\n          \x7bprops.children\x7d\n        </p>\n      )\x7d\n      placeholder=\"Type a text...\"\n      allowedFeatures=\x7b[\n        types.RichTextFeatures.Bold,\n        types.RichTextFeatures.Link,\n      ]\x7d\n      renderLink=\x7b(\x7b children, href, target, rel \x7d) => (\n        <Link\n          href=\x7bhref\x7d\n          target=\x7btarget\x7d\n          rel=\x7brel\x7d\n          className=\"inline-block text-sky-500 hover:text-sky-600 hover:-translate-y-px transition-all ease-out duration-150\"\n        >\n          \x7bchildren\x7d\n        </Link>\n      )\x7d\n    />\n"

/-- `generateImageJSX` (part_002 lines 647-691). -/
def generateImageJSX (component : RBComponent) : String :=
  let imageUrl0 :=
    match component.contentF with
    | some cont => if cont != "" then (matchImgSrc cont).getD "" else ""
    | none => ""
  let altText0 :=
    match component.contentF with
    | some cont =>
      if cont != "" then
        match matchAlt cont with
        | some a => if a != "" then a else "Image"
        | none => "Image"
      else "Image"
    | none => "Image"
  let settingsUrl := nestedUrl component.settingsF ("image")
  let imageUrl :=
    match settingsUrl with
    | some u => u
    | none => imageUrl0
  let altText :=
    match settingsUrl with
    | some _ =>
      match component.settingsF with
      | some se =>
        match lookupJ se ("alt_text") with
        | some a => if jsTruthy a then jsValToDisplay a else altText0
        | none => altText0
      | none => altText0
    | none => altText0
  "    <Image\n      propName=\"imageSource\"\n      source=\x7bimageSource || \x7b\n" ++
    (if imageUrl != "" then
      "        src: \"" ++ imageUrl ++ "\",\n        alt: \"" ++ altText ++ "\",\n"
    else "        src: photos.DESK_MAC.src,\n        alt: photos.DESK_MAC.alt,\n") ++
    "      \x7d\x7d\n      alt=\"" ++ altText ++
    "\"\n      imageClassName=\x7bclassNames(\n        isRounded && \"rounded-lg\",\n        hasShadow && \"shadow-2xl\"\n      )\x7d\n    />\n"

/-- `generateButtonJSX` (part_002 lines 696-762).  The extracted text, link,
target, color and size locals are computed and never interpolated into the
emitted template, exactly as in the source. -/
def generateButtonJSX (component : RBComponent) : String :=
  let _buttonText :=
    match component.contentF with
    | some cont =>
      if cont != "" then
        match matchSpanText cont with
        | some t => if t != "" then jsTrim t else "Button"
        | none => "Button"
      else "Button"
    | none => "Button"
  let _buttonLink :=
    match component.contentF with
    | some cont =>
      if cont != "" then
        match matchHref cont with
        | some h => if h != "" then h else "#"
        | none => "#"
      else "#"
    | none => "#"
  let _isTargetBlank :=
    match component.contentF with
    | some cont =>
      if cont != "" then jsIncludes cont ("target=" ++ strOf [cDq] ++ "_blank" ++ strOf [cDq])
      else false
    | none => false
  let _buttonType :=
    match component.settingsF with
    | some se => jDisplayOr (lookupJ se ("button_type")) ("solid")
    | none => "solid"
  let _buttonColor :=
    match component.stylesF with
    | some st =>
      match lookupS st ("backgroundColor") with
      | some bgc =>
        if bgc != "" then
          if jsIncludes bgc ("pink") then "pink"
          else if jsIncludes bgc ("purple") then "purple"
          else if jsIncludes bgc ("red") then "red"
          else if jsIncludes bgc ("green") then "green"
          else if jsIncludes bgc ("blue") then "blue"
          else "blue"
        else "blue"
      | none => "blue"
    | none => "blue"
  let _isBigButton :=
    match component.classesF with
    | some cls =>
      cls.any (fun c => jsIncludes c ("elementor-size-lg") || jsIncludes c ("elementor-size-xl"))
    | none => false
  "    <Link\n      href=\x7bhref || \"#\"\x7d\n      target=\x7bisTargetBlank ? \"_blank\" : undefined\x7d\n      className=\x7bclassNames(\n        \"inline-block rounded-md font-bold transition-all ease-out duration-150\",\n        isBigButton ? \"px-8 py-4 text-lg\" : \"px-5 py-3 text-base\",\n        type === \"solid\" && buttonColor === \"blue\" && \"bg-blue-600 hover:bg-blue-700 text-white\",\n        type === \"solid\" && buttonColor === \"green\" && \"bg-green-600 hover:bg-green-700 text-white\",\n        type === \"outline\" && \"border-2 bg-transparent\",\n        type === \"outline\" && buttonColor === \"blue\" && \"border-blue-600 hover:border-blue-700 text-blue-600 hover:text-blue-700\",\n        type === \"link\" && \"px-0 py-0 bg-transparent hover:-translate-y-1\",\n        type === \"link\" && buttonColor === \"blue\" && \"text-blue-600 hover:text-blue-700\"\n      )\x7d\n    >\n      \x7btext\x7d\n    </Link>\n"

/-- `generateVideoJSX` (part_002 lines 767-829). -/
def generateVideoJSX (component : RBComponent) : String :=
  let videoType0 := jDisplayOr (lookupJ component.props ("type")) ("streaming")
  let videoId0 :=
    match lookupJ component.props ("videoId") with
    | some v => if jsTruthy v then jsValToDisplay v else ""
    | none => ""
  let _videoPlatform := jDisplayOr (lookupJ component.props ("platform")) ("youtube")
  let tuple : String × String × String :=
    match component.contentF with
    | some cont =>
      if cont != "" then
        if jsIncludes cont ("youtube") then
          (videoType0,
           (match matchYoutubeId cont with
            | some vid => if vid != "" then vid else videoId0
            | none => videoId0), "")
        else if jsIncludes cont ("vimeo") then
          (videoType0,
           (match matchVimeoId cont with
            | some vid => if vid != "" then vid else videoId0
            | none => videoId0), "")
        else if jsIncludes cont (".mp4") || jsIncludes cont (".webm") then
          ("file", videoId0,
           (match matchVideoFileUrl cont with
            | some url => if url != "" then url else ""
            | none => ""))
        else (videoType0, videoId0, "")
      else (videoType0, videoId0, "")
    | none => (videoType0, videoId0, "")
  let videoType := tuple.fst
  let videoId := tuple.snd.fst
  let videoUrl := tuple.snd.snd
  "    <div className=\"aspect-w-16 aspect-h-9 w-full overflow-hidden rounded-lg\">\n" ++
    (if videoType == "streaming" && videoId != "" then
      "      <iframe\n        className=\"w-full h-full\"\n        src=\x7b\n          videoPlatform === \"youtube\"\n            ? \"https://www.youtube.com/embed/" ++
        videoId ++ "\"\n            : \"https://player.vimeo.com/video/" ++ videoId ++
        "\"\n        \x7d\n        title=\"Video player\"\n        allow=\"accelerometer; autoplay; clipboard-write; encrypted-media; gyroscope; picture-in-picture\"\n        allowFullScreen\n      />\n"
    else
      "      <Video\n        controls\n        className=\"w-full h-full\"\n        autoPlay=\x7bfalse\x7d\n        muted=\x7bfalse\x7d\n" ++
        (if videoUrl != "" then "        src=\"" ++ videoUrl ++ "\"\n"
         else "        src=\x7bvideoFile?.url || \"\"\x7d\n") ++
        "      />\n") ++
    "    </div>\n"

/-- `generateGenericWidgetJSX` (part_002 lines 834-852). -/
def generateGenericWidgetJSX (component : RBComponent) : String :=
  "    <div className=\"p-4 border border-gray-200 rounded-md\">\n      <div className=\"text-sm text-gray-500 mb-2\">Generic Component</div>\n" ++
    (match component.contentF with
     | some cont =>
       if cont != "" then
         "      <div dangerouslySetInnerHTML=\x7b\x7b __html: \x60\n        " ++
           escBackticks cont ++ "\n      \x60 \x7d\x7d />\n"
       else
         "      <div>Component: " ++
           (if component.name != "" then component.name
            else
              match component.typeF with
              | some ty => if ty != "" then ty else "Unknown"
              | none => "Unknown") ++ "</div>\n"
     | none =>
       "      <div>Component: " ++
         (if component.name != "" then component.name
          else
            match component.typeF with
            | some ty => if ty != "" then ty else "Unknown"
            | none => "Unknown") ++ "</div>\n") ++
    "    </div>\n"

/-- The default branch of the body switch (part_002 lines 271-291):
dispatch on name substrings when the type is absent or unrecognized. -/
def bodyDefaultDispatch (component : RBComponent) : String :=
  if jsIncludes component.name ("section") then generateSectionJSX component
  else if jsIncludes component.name ("column") then generateColumnJSX component
  else if jsIncludes component.name ("heading") then generateHeadingJSX component
  else if jsIncludes component.name ("text") then generateTextJSX component
  else if jsIncludes component.name ("image") then generateImageJSX component
  else if jsIncludes component.name ("button") then generateButtonJSX component
  else if jsIncludes component.name ("video") then generateVideoJSX component
  else generateGenericWidgetJSX component

/-- `generateComponentBody` (part_002 lines 227-297). -/
def generateComponentBody (component : RBComponent) : String :=
  let body :=
    if famHeading component || famText component then
      "  const titleColor = textColors.GRAY_900;\n  const textColor = textColors.GRAY_700;\n\n"
    else ""
  let body := body ++
    (if famSection component then
      "  const titleColor = textColors.GRAY_900;\n  const textColor = textColors.GRAY_700;\n  const textAlignClass = textAlign === \"center\" ? \"text-center\" : textAlign === \"right\" ? \"text-right\" : \"text-left\";\n  const justifyContentClass = textAlign === \"center\" ? \"justify-center\" : textAlign === \"right\" ? \"justify-end\" : \"justify-start\";\n  const itemsAlignClass = textAlign === \"center\" ? \"items-center\" : textAlign === \"right\" ? \"items-end\" : \"items-start\";\n\n"
    else "")
  let body := body ++ "  return (\n"
  let body := body ++
    (match component.typeF with
     | some ty =>
       if ty == "section" then generateSectionJSX component
       else if ty == "column" then generateColumnJSX component
       else if ty == "heading" then generateHeadingJSX component
       else if ty == "text-editor" then generateTextJSX component
       else if ty == "image" then generateImageJSX component
       else if ty == "button" then generateButtonJSX component
       else if ty == "video" then generateVideoJSX component
       else bodyDefaultDispatch component
     | none => bodyDefaultDispatch component)
  body ++ "  );\n"

/-- `generateComponentFunction` (part_002 lines 93-222): the props interface,
then the destructuring header, then the body. -/
def generateComponentFunction (component : RBComponent) : String :=
  let componentName := pascalCase component.name
  let code := "export interface " ++ componentName ++ "Props \x7b\n"
  let code := code ++ "  backgroundColor?: any;\n  borderTop?: boolean;\n  borderBottom?: boolean;\n  paddingTop?: string;\n  paddingBottom?: string;\n"
  let code := code ++
    (if famHeading component then
      "  title?: types.TextValue;\n  tag?: string;\n  extraBoldTitle?: boolean;\n"
    else "")
  let code := code ++
    (if famText component then "  text?: types.TextValue;\n  textAlign?: string;\n" else "")
  let code := code ++
    (if famImage component then
      "  imageSource?: types.IImageSource;\n  isRounded?: boolean;\n  hasShadow?: boolean;\n"
    else "")
  let code := code ++
    (if famButton component then
      "  text?: string;\n  href?: string;\n  isTargetBlank?: boolean;\n  buttonColor?: string;\n  type?: \"solid\" | \"outline\" | \"link\";\n  isBigButton?: boolean;\n"
    else "")
  let code := code ++
    (if famSection component then
      "  imageSide?: \"left\" | \"right\";\n  bigImage?: boolean;\n  mobileImageTop?: boolean;\n  textAlign?: \"left\" | \"center\" | \"right\";\n  verticalAlign?: \"top\" | \"center\" | \"bottom\";\n  mediaType?: \"image\" | \"multiple-images\" | \"video-file\" | \"video-streaming\";\n  buttons?: types.RepeaterItems;\n"
    else "")
  let code := code ++ extraPropsInterfaceCode component.props
  let code := code ++ "\x7d\n\n"
  let code := code ++ "const " ++ componentName ++ ": types.Brick<" ++ componentName ++ "Props> = (\x7b\n"
  let code := code ++ "  backgroundColor,\n  borderTop,\n  borderBottom,\n  paddingTop,\n  paddingBottom,\n"
  let code := code ++
    (if famHeading component then "  title,\n  tag = \"h2\",\n  extraBoldTitle = false,\n" else "")
  let code := code ++
    (if famText component then "  text,\n  textAlign = \"left\",\n" else "")
  let code := code ++
    (if famImage component then "  imageSource,\n  isRounded = false,\n  hasShadow = false,\n" else "")
  let code := code ++
    (if famButton component then
      "  text = \"Button\",\n  href = \"#\",\n  isTargetBlank = false,\n  buttonColor,\n  type = \"solid\",\n  isBigButton = false,\n"
    else "")
  let code := code ++
    (if famSection component then
      "  imageSide = \"right\",\n  bigImage = false,\n  mobileImageTop = false,\n  textAlign = \"left\",\n  verticalAlign = \"center\",\n  mediaType = \"image\",\n  buttons,\n"
    else "")
  let code := code ++ extraPropsDestructureCode component.props
  let code := code ++ "\x7d) => \x7b\n"
  let code := code ++ generateComponentBody component
  code ++ "\x7d;\n\n"

/-- Section schema block (part_002 lines 866-878). -/
def sectionSchemaExtra : String :=
  "  sideEditProps: [\n    backgroundSideGroup,\n    paddingBordersSideGroup,\n  ],\n  getDefaultProps: () => (\x7b\n    backgroundColor: \x7b color: \"white\", className: \"bg-white\" \x7d,\n    borderTop: false,\n    borderBottom: false,\n    paddingTop: \"0\",\n    paddingBottom: \"0\",\n  \x7d),\n"

/-- Heading schema block (part_002 lines 879-905). -/
def headingSchemaExtra : String :=
  "  sideEditProps: [\n    \x7b\n      name: \"tag\",\n      label: \"Tag\",\n      type: types.SideEditPropType.Select,\n      selectOptions: [\n        \x7b value: \"h1\", label: \"H1\" \x7d,\n        \x7b value: \"h2\", label: \"H2\" \x7d,\n        \x7b value: \"h3\", label: \"H3\" \x7d,\n        \x7b value: \"h4\", label: \"H4\" \x7d,\n        \x7b value: \"h5\", label: \"H5\" \x7d,\n        \x7b value: \"h6\", label: \"H6\" \x7d,\n      ],\n    \x7d,\n    \x7b\n      name: \"extraBoldTitle\",\n      label: \"Extra Bold\",\n      type: types.SideEditPropType.Boolean,\n    \x7d,\n  ],\n  getDefaultProps: () => (\x7b\n    title: \x7b text: \"Heading\" \x7d,\n    tag: \"h2\",\n    extraBoldTitle: false,\n  \x7d),\n"

/-- Text schema block (part_002 lines 906-925). -/
def textSchemaExtra : String :=
  "  sideEditProps: [\n    \x7b\n      name: \"textAlign\",\n      label: \"Text Align\",\n      type: types.SideEditPropType.Select,\n      selectOptions: [\n        \x7b value: \"left\", label: \"Left\" \x7d,\n        \x7b value: \"center\", label: \"Center\" \x7d,\n        \x7b value: \"right\", label: \"Right\" \x7d,\n      ],\n    \x7d,\n  ],\n  getDefaultProps: () => (\x7b\n    text: \x7b\n      text: \"Text content goes here.\"\n    \x7d,\n    textAlign: \"left\",\n  \x7d),\n"

/-- Image schema block (part_002 lines 926-948). -/
def imageSchemaExtra : String :=
  "  sideEditProps: [\n    \x7b\n      name: \"isRounded\",\n      label: \"Rounded\",\n      type: types.SideEditPropType.Boolean,\n    \x7d,\n    \x7b\n      name: \"hasShadow\",\n      label: \"Shadow\",\n      type: types.SideEditPropType.Boolean,\n    \x7d,\n  ],\n  getDefaultProps: () => (\x7b\n    imageSource: \x7b\n      src: photos.DESK_MAC.src,\n      alt: photos.DESK_MAC.alt,\n      placeholderSrc: photos.DESK_MAC.placeholderSrc,\n    \x7d,\n    isRounded: false,\n    hasShadow: false,\n  \x7d),\n"

/-- Button schema block (part_002 lines 949-996). -/
def buttonSchemaExtra : String :=
  "  sideEditProps: [\n    \x7b\n      name: \"text\",\n      label: \"Button text\",\n      type: types.SideEditPropType.Text,\n    \x7d,\n    \x7b\n      name: \"href\",\n      label: \"Link\",\n      type: types.SideEditPropType.Text,\n    \x7d,\n    \x7b\n      name: \"isTargetBlank\",\n      label: \"Open in new tab\",\n      type: types.SideEditPropType.Boolean,\n    \x7d,\n    \x7b\n      name: \"type\",\n      label: \"Type\",\n      type: types.SideEditPropType.Select,\n      selectOptions: [\n        \x7b value: \"solid\", label: \"Solid\" \x7d,\n        \x7b value: \"outline\", label: \"Outline\" \x7d,\n        \x7b value: \"link\", label: \"Link\" \x7d,\n      ],\n    \x7d,\n    \x7b\n      name: \"buttonColor\",\n      label: \"Color\",\n      type: types.SideEditPropType.Select,\n      selectOptions: buttonColors,\n    \x7d,\n    \x7b\n      name: \"isBigButton\",\n      label: \"Big\",\n      type: types.SideEditPropType.Boolean,\n    \x7d,\n  ],\n  getDefaultProps: () => (\x7b\n    text: \"Button\",\n    href: \"#\",\n    type: \"solid\",\n    buttonColor: \"blue\",\n    isTargetBlank: false,\n    isBigButton: false,\n  \x7d),\n"

/-- Video schema block (part_002 lines 997-1038). -/
def videoSchemaExtra : String :=
  "  sideEditProps: [\n    \x7b\n      name: \"type\",\n      label: \"Video Type\",\n      type: types.SideEditPropType.Select,\n      selectOptions: [\n        \x7b value: \"streaming\", label: \"Streaming (YouTube/Vimeo)\" \x7d,\n        \x7b value: \"file\", label: \"Video File\" \x7d,\n      ],\n    \x7d,\n    \x7b\n      name: \"platform\",\n      label: \"Platform\",\n      type: types.SideEditPropType.Select,\n      selectOptions: [\n        \x7b value: \"youtube\", label: \"YouTube\" \x7d,\n        \x7b value: \"vimeo\", label: \"Vimeo\" \x7d,\n      ],\n      show: (props) => props.type === \"streaming\",\n    \x7d,\n    \x7b\n      name: \"videoId\",\n      label: \"Video ID\",\n      type: types.SideEditPropType.Text,\n      show: (props) => props.type === \"streaming\",\n    \x7d,\n    \x7b\n      name: \"videoFile\",\n      label: \"Video File\",\n      type: types.SideEditPropType.File,\n      show: (props) => props.type === \"file\",\n    \x7d,\n  ],\n  getDefaultProps: () => (\x7b\n    type: \"streaming\",\n    platform: \"youtube\",\n    videoId: \"dQw4w9WgXcQ\", // Rick Astley\n    videoFile: null,\n  \x7d),\n"

/-- `generateSchema` (part_002 lines 857-1043): name, label and category
lines, then the per-family side-edit and default-props block. -/
def generateSchema (component : RBComponent) : String :=
  let componentName := pascalCase component.name
  ("\n" ++ componentName ++ ".schema = \x7b\n") ++
    (("  name: \x27" ++ component.name ++ "\x27,\n") ++
      (("  label: \x27" ++ component.label ++ "\x27,\n") ++
        (("  category: \x27" ++ component.category ++ "\x27,\n") ++
          ((if famSection component then sectionSchemaExtra
            else if famHeading component then headingSchemaExtra
            else if famText component then textSchemaExtra
            else if famImage component then imageSchemaExtra
            else if famButton component then buttonSchemaExtra
            else if famVideo component then videoSchemaExtra
            else "") ++
            "\x7d;\n"))))

/-- `generateReactBricksComponent` (part_002 lines 9-29): accumulate imports
into the caller-supplied set (`new Set()` — the empty list — at a default
invocation), then emit imports, component function, schema and the default
export, in that order. -/
def generateReactBricksComponent (component : RBComponent) (imports : List String) :
    String :=
  let imports2 := addRequiredImports component imports
  generateImportsStr imports2 ++
    (generateComponentFunction component ++
      (generateSchema component ++
        ("\nexport default " ++ pascalCase component.name ++ ";\n")))

/-! ## Occurrence counting, for the textual uniqueness properties -/

/-- Number of positions where the pattern occurs (overlaps counted). -/
def countOcc (pat : List Char) : List Char → Nat
  | [] => if isPrefixChars pat [] then 1 else 0
  | l@(_ :: t) => (if isPrefixChars pat l then 1 else 0) + countOcc pat t

/-- Number of occurrences of `pat` inside `s`. -/
def countSubstr (s pat : String) : Nat := countOcc pat.data s.data

/-- The schema name literal of a component name. -/
def nameLiteral (n : String) : String := "name: \x27" ++ n ++ "\x27"

/-- The props-interface declaration head of a component name. -/
def interfaceDecl (n : String) : String :=
  "export interface " ++ pascalCase n ++ "Props \x7b\n"

/-! ## Projections and fixtures used by the claim statements -/

/-- The string payload of a prop, `none` when absent or not a string. -/
def propStr (props : List (String × JsVal)) (k : String) : Option String :=
  match lookupJ props k with
  | some (.str s) => some s
  | _ => none

/-- The `className` field of an object-valued prop. -/
def propClassName (props : List (String × JsVal)) (k : String) : Option String :=
  match lookupJ props k with
  | some (.obj f) =>
    match lookupJ f ("className") with
    | some (.str s) => some s
    | _ => none
  | _ => none

/-- Decidable statement that no element of the document carries the builder's
root marker class. -/
def noElementorCheck (doc : HtmlDocument) : Bool :=
  (allNodes doc.root).all (fun n => !((classListOf n).contains ("elementor")))

/-- A builder element node carrying inline background-color and text-align
styles, the input exercising the parse-then-map style override path. -/
def c4StyleNode : DomNode :=
  DomNode.mk "DIV"
    [(("id"), ("el1")), (("class"), ("elementor-element")),
     (("style"), ("background-color: red; text-align: center"))] "" []

/-- The builder root container around `c4StyleNode`. -/
def c4Container : DomNode :=
  DomNode.mk "DIV" [(("class"), ("elementor"))] "" [c4StyleNode]

/-- A video element with no content and no settings: no platform id and no
hosted file can be extracted from it. -/
def c5Element : ElementorElement :=
  ElementorElement.mk "v" "video" "div" [] [] [] [] none []

/-- A document without any element carrying the builder root class. -/
def c2Doc : HtmlDocument :=
  ⟨"T", DomNode.mk "HTML" [] ""
    [DomNode.mk "BODY" [(("class"), ("page"))] "" []]⟩

/-- A column ComponentDescription whose `width` prop value embeds the text of
its own schema name literal; the generator interpolates the prop verbatim
into the column class name. -/
def c9Component : RBComponent :=
  RBComponent.mk "column-block" "Column" "Layout"
    [(("width"), JsVal.str ("name: \x27column-block\x27"))] [] []
    none none none none none none

/-! ## Helper lemmas -/

/-- Folding string append from an accumulator splits off the accumulator. -/
theorem strFoldlAppend (l : List String) :
    ∀ a : String, l.foldl (· ++ ·) a = a ++ l.foldl (· ++ ·) "" := by
  induction l with
  | nil => intro a; simp [List.foldl, String.append_empty]
  | cons x xs ih =>
    intro a
    simp only [List.foldl]
    rw [ih (a ++ x), ih (("" : String) ++ x), String.empty_append,
      String.append_assoc]

/-- Join of a cons. -/
theorem strJoinCons (a : String) (l : List String) :
    String.join (a :: l) = a ++ String.join l := by
  simp only [String.join, List.foldl]
  rw [strFoldlAppend l (("" : String) ++ a), String.empty_append]

/-- Looking up the just-assigned key yields the new value. -/
theorem lookupA_upsertA_self {A : Type} (l : List (String × A)) (k : String) (v : A) :
    lookupA (upsertA l k v) k = some v := by
  induction l with
  | nil => simp [upsertA, lookupA, List.find?]
  | cons p ps ih =>
    by_cases h : p.fst == k
    · simp [upsertA, h, lookupA, List.find?]
    · simp only [upsertA, h, Bool.false_eq_true, if_false]
      simpa [lookupA, List.find?, h] using ih

/-- Assigning a different key leaves a lookup unchanged. -/
theorem lookupA_upsertA_ne {A : Type} (l : List (String × A)) (k k2 : String) (v : A)
    (h : ¬(k2 = k)) : lookupA (upsertA l k2 v) k = lookupA l k := by
  induction l with
  | nil =>
    have hk : (k2 == k) = false := by simpa using h
    simp [upsertA, lookupA, List.find?, hk]
  | cons p ps ih =>
    by_cases hp : p.fst == k2
    · have hp2 : (p.fst == k) = false := by
        have : p.fst = k2 := by simpa using hp
        simp [this]
        exact h
      simp [upsertA, hp, lookupA, List.find?, hp2]
    · by_cases hk : p.fst == k
      · simp [upsertA, hp, lookupA, List.find?, hk]
      · simp only [upsertA, hp, Bool.false_eq_true, if_false]
        simpa [lookupA, List.find?, hk] using ih

/-- Children of a constructed component. -/
@[simp] theorem childrenMk (n l cat : String) (p : List (String × JsVal))
    (ch : List RBComponent) (rep : List (String × List JsVal))
    (tg ty co : Option String) (se : Option (List (String × JsVal)))
    (st : Option (List (String × String))) (cl : Option (List String)) :
    (RBComponent.mk n l cat p ch rep tg ty co se st cl).children = ch := rfl

/-- Props of a constructed component. -/
@[simp] theorem propsMk (n l cat : String) (p : List (String × JsVal))
    (ch : List RBComponent) (rep : List (String × List JsVal))
    (tg ty co : Option String) (se : Option (List (String × JsVal)))
    (st : Option (List (String × String))) (cl : Option (List String)) :
    (RBComponent.mk n l cat p ch rep tg ty co se st cl).props = p := rfl

/-- Name of a constructed component. -/
@[simp] theorem nameMk (n l cat : String) (p : List (String × JsVal))
    (ch : List RBComponent) (rep : List (String × List JsVal))
    (tg ty co : Option String) (se : Option (List (String × JsVal)))
    (st : Option (List (String × String))) (cl : Option (List String)) :
    (RBComponent.mk n l cat p ch rep tg ty co se st cl).name = n := rfl

/-- Name/label mutation leaves children unchanged. -/
@[simp] theorem childrenWithNameLabel (c : RBComponent) (n l : String) :
    (c.withNameLabel n l).children = c.children := by
  cases c; rfl

/-- Props mutation leaves children unchanged. -/
@[simp] theorem childrenWithProps (c : RBComponent) (p : List (String × JsVal)) :
    (c.withProps p).children = c.children := by
  cases c; rfl

/-- Children mutation sets children. -/
@[simp] theorem childrenWithChildren (c : RBComponent) (ch : List RBComponent) :
    (c.withChildren ch).children = ch := by
  cases c; rfl

/-- Name/label mutation leaves props unchanged. -/
@[simp] theorem propsWithNameLabel (c : RBComponent) (n l : String) :
    (c.withNameLabel n l).props = c.props := by
  cases c; rfl

/-- Props mutation sets props. -/
@[simp] theorem propsWithProps (c : RBComponent) (p : List (String × JsVal)) :
    (c.withProps p).props = p := by
  cases c; rfl

/-- Children mutation leaves props unchanged. -/
@[simp] theorem propsWithChildren (c : RBComponent) (ch : List RBComponent) :
    (c.withChildren ch).props = c.props := by
  cases c; rfl

/-- The section mapper does not touch children. -/
@[simp] theorem childrenMapSection (e : ElementorElement) (c : RBComponent) :
    (mapSection e c).children = c.children := by
  simp [mapSection]

/-- The column mapper does not touch children. -/
@[simp] theorem childrenMapColumn (e : ElementorElement) (c : RBComponent)
    (pt : Option String) : (mapColumn e c pt).children = c.children := by
  simp [mapColumn]

/-- The heading mapper does not touch children. -/
@[simp] theorem childrenMapHeading (e : ElementorElement) (c : RBComponent) :
    (mapHeading e c).children = c.children := by
  simp [mapHeading]

/-- The text mapper does not touch children. -/
@[simp] theorem childrenMapTextEditor (e : ElementorElement) (c : RBComponent) :
    (mapTextEditor e c).children = c.children := by
  simp [mapTextEditor]

/-- The image mapper does not touch children. -/
@[simp] theorem childrenMapImage (e : ElementorElement) (c : RBComponent) :
    (mapImage e c).children = c.children := by
  simp [mapImage]

/-- The button mapper does not touch children. -/
@[simp] theorem childrenMapButton (e : ElementorElement) (c : RBComponent) :
    (mapButton e c).children = c.children := by
  simp [mapButton]

/-- The video mapper does not touch children. -/
@[simp] theorem childrenMapVideo (e : ElementorElement) (c : RBComponent) :
    (mapVideo e c).children = c.children := by
  simp [mapVideo]

/-- The generic-widget mapper does not touch children. -/
@[simp] theorem childrenMapGenericWidget (e : ElementorElement) (c : RBComponent) :
    (mapGenericWidget e c).children = c.children := by
  simp [mapGenericWidget]

/-- The explicit child recursion is the map over children. -/
theorem mapElementorChildrenEq (l : List ElementorElement) (ty : String) :
    mapElementorChildren l ty = l.map (fun c => mapElementorToReactBricks c (some ty)) := by
  induction l with
  | nil => simp [mapElementorChildren]
  | cons c cs ih => simp [mapElementorChildren, ih]

/-- The children of a mapped element are exactly the mapped children, in
order, each with the element's own type as the parent hint. -/
theorem mapChildrenEq (e : ElementorElement) (pt : Option String) :
    (mapElementorToReactBricks e pt).children =
      e.children.map (fun c => mapElementorToReactBricks c (some e.type)) := by
  cases e with
  | mk eid ety etag eset ech ecl est eco eat =>
    simp only [mapElementorToReactBricks, ElementorElement.type, ElementorElement.children]
    by_cases h : ech.length > 0
    · simp [h, mapElementorChildrenEq]
    · have hnil : ech = [] := List.eq_nil_of_length_eq_zero (Nat.eq_zero_of_not_pos h)
      subst hnil
      simp only [List.map_nil]
      split_ifs <;> simp

/-! ## Claims -/

/-- Claim C1: for every Element `e`, the ComponentDescription returned by
`mapElementorToReactBricks e parentType` has exactly as many children as `e`,
and the child at every position `i` is the mapping of `e`'s child at
position `i` with `e`'s type passed as the parentType hint — the mapper
never merges, drops or reorders nodes. -/
theorem C1_mapper_structural_isomorphism (e : ElementorElement)
    (parentType : Option String) :
    (mapElementorToReactBricks e parentType).children.length = e.children.length ∧
    ∀ i : Nat,
      (mapElementorToReactBricks e parentType).children[i]? =
        (e.children[i]?).map (fun c => mapElementorToReactBricks c (some e.type)) := by
  constructor
  · rw [mapChildrenEq]
    exact List.length_map e.children _
  · intro i
    rw [mapChildrenEq]
    exact List.getElem?_map _ e.children i

/-- Claim C7: the column width mapping is total (its result is always one of
the six width tokens) and follows the larger-or-equal-threshold rule: any
input at most 25 maps to 1/4, at most 33.33 to 1/3, at most 50 to 1/2, at
most 66.66 to 2/3, at most 75 to 3/4, and anything larger to full. -/
theorem C7_calculateColumnWidth_thresholds (q : ℚ) :
    calculateColumnWidth q ∈ (["1/4", "1/3", "1/2", "2/3", "3/4", "full"] : List String) ∧
    (q ≤ 25 → calculateColumnWidth q = "1/4") ∧
    (25 < q → q ≤ 3333 / 100 → calculateColumnWidth q = "1/3") ∧
    (3333 / 100 < q → q ≤ 50 → calculateColumnWidth q = "1/2") ∧
    (50 < q → q ≤ 6666 / 100 → calculateColumnWidth q = "2/3") ∧
    (6666 / 100 < q → q ≤ 75 → calculateColumnWidth q = "3/4") ∧
    (75 < q → calculateColumnWidth q = "full") := by
  unfold calculateColumnWidth
  refine ⟨by split_ifs <;> simp, ?_, ?_, ?_, ?_, ?_, ?_⟩
  · intro h1
    split_ifs <;> first | rfl | linarith
  · intro h1 h2
    split_ifs <;> first | rfl | linarith
  · intro h1 h2
    split_ifs <;> first | rfl | linarith
  · intro h1 h2
    split_ifs <;> first | rfl | linarith
  · intro h1 h2
    split_ifs <;> first | rfl | linarith
  · intro h1
    split_ifs <;> first | rfl | linarith

/-- Witness for C7 at the six concrete inputs of the claim. -/
theorem C7_witness :
    calculateColumnWidth 25 = "1/4" ∧ calculateColumnWidth (3333 / 100) = "1/3" ∧
    calculateColumnWidth 50 = "1/2" ∧ calculateColumnWidth (6666 / 100) = "2/3" ∧
    calculateColumnWidth 75 = "3/4" ∧ calculateColumnWidth 90 = "full" :=
  ⟨(C7_calculateColumnWidth_thresholds 25).2.1 (by norm_num),
   (C7_calculateColumnWidth_thresholds (3333 / 100)).2.2.1 (by norm_num) (by norm_num),
   (C7_calculateColumnWidth_thresholds 50).2.2.2.1 (by norm_num) (by norm_num),
   (C7_calculateColumnWidth_thresholds (6666 / 100)).2.2.2.2.1 (by norm_num) (by norm_num),
   (C7_calculateColumnWidth_thresholds 75).2.2.2.2.2.1 (by norm_num) (by norm_num),
   (C7_calculateColumnWidth_thresholds 90).2.2.2.2.2.2 (by norm_num)⟩

/-- The font bucket always yields one of the ten size tokens. -/
theorem fontBucketMem (px : Option ℚ) :
    fontBucket px ∈
      (["xs", "sm", "base", "lg", "xl", "2xl", "3xl", "4xl", "5xl", "6xl"] :
        List String) := by
  unfold fontBucket
  split_ifs <;> simp

/-- Claim C10: `mapFontSize` is total on arbitrary strings — it always
returns one of the ten size tokens — and when the leading numeric part
cannot be parsed (`parseFloat` yields `NaN`, so every threshold comparison
is false) it returns the top bucket 6xl. -/
theorem C10_mapFontSize_total_nan (s : String) :
    (jsParseFloat s = none → mapFontSize s = "6xl") ∧
    mapFontSize s ∈
      (["xs", "sm", "base", "lg", "xl", "2xl", "3xl", "4xl", "5xl", "6xl"] :
        List String) := by
  constructor
  · intro h
    simp only [mapFontSize, h, Option.map_none', ite_self]
    simp [fontBucket, oLe]
  · simp only [mapFontSize]
    exact fontBucketMem _

/-- Witness for C10 at a concrete unparseable input. -/
theorem C10_witness : jsParseFloat ("zzz") = none ∧ mapFontSize ("zzz") = "6xl" :=
  have h : jsParseFloat ("zzz") = none := rfl
  ⟨h, (C10_mapFontSize_total_nan ("zzz")).1 h⟩

/-- Concrete evaluation: `parseFloat` of `12pt` is 12. -/
theorem jsParseFloat12pt : jsParseFloat ("12pt") = some 12 := by
  have hd : ("12pt" : String).data = ['1', '2', 'p', 't'] := rfl
  simp [jsParseFloat, jsParseFloatCore, hd, parseDigitsAux, parseSign, isJsWs]

/-- Concrete evaluation: twelve pixels bucket to the scale step `3`. -/
theorem bucketPixels12 : bucketPixels (some 12) = "3" := by
  simp only [bucketPixels, oEqQ, oLe]
  norm_num

/-- Counterexample to claim C6: the size/spacing mapping does not convert a
pt suffix (only `mapFontSize` does); `12pt` is bucketed as 12 raw pixels,
yielding `3`, not the `4` that a conversion to about 16 pixels would give. -/
theorem C6_counterexample :
    convertSizeToTailwind ("12pt") = "3" ∧ convertSizeToTailwind ("12pt") ≠ "4" := by
  have hu : stripNumChars ("12pt") = "pt" := rfl
  have h3 : convertSizeToTailwind ("12pt") = "3" := by
    simp only [convertSizeToTailwind, hu, jsParseFloat12pt]
    norm_num [bucketPixels, oEqQ, oLe]
    simp
  exact ⟨h3, by rw [h3]; decide⟩

/-- Claim C6 as amended: the size/spacing mapping strips the unit suffix,
converts em and rem to pixels by multiplying by 16, maps percentage sizes to
the `normal` sentinel, and buckets every other unit — including `pt`, which
is NOT converted — as raw pixels into the fixed ascending scale; in
particular `12pt` buckets as 12 pixels to `3`. -/
theorem C6_sizeMapping_amended :
    (∀ s : String, stripNumChars s = "pt" →
      convertSizeToTailwind s = bucketPixels (jsParseFloat s)) ∧
    (∀ s : String, stripNumChars s = "em" ∨ stripNumChars s = "rem" →
      convertSizeToTailwind s = bucketPixels ((jsParseFloat s).map (fun q => q * 16))) ∧
    (∀ s : String, stripNumChars s = "%" → convertSizeToTailwind s = "normal") ∧
    convertSizeToTailwind ("12pt") = "3" ∧
    (bucketPixels (some 0) = "none" ∧ bucketPixels (some 1) = "px" ∧
     bucketPixels (some 2) = "0.5" ∧ bucketPixels (some 4) = "1" ∧
     bucketPixels (some 6) = "1.5" ∧ bucketPixels (some 8) = "2" ∧
     bucketPixels (some 12) = "3" ∧ bucketPixels (some 16) = "4" ∧
     bucketPixels (some 20) = "5" ∧ bucketPixels (some 24) = "6" ∧
     bucketPixels (some 32) = "8" ∧ bucketPixels (some 40) = "10" ∧
     bucketPixels (some 48) = "12" ∧ bucketPixels (some 64) = "16" ∧
     bucketPixels (some 80) = "20" ∧ bucketPixels (some 96) = "24" ∧
     bucketPixels (some 128) = "32" ∧ bucketPixels (some 160) = "40" ∧
     bucketPixels (some 192) = "48" ∧ bucketPixels (some 193) = "large") := by
  refine ⟨?_, ?_, ?_, ?_, ?_⟩
  · intro s h
    simp [convertSizeToTailwind, h]
  · intro s h
    rcases h with h | h <;> simp [convertSizeToTailwind, h]
  · intro s h
    simp [convertSizeToTailwind, h]
  · have hu : stripNumChars ("12pt") = "pt" := rfl
    simp only [convertSizeToTailwind, hu, jsParseFloat12pt]
    norm_num [bucketPixels, oEqQ, oLe]
    simp
  · refine ⟨?_, ?_, ?_, ?_, ?_, ?_, ?_, ?_, ?_, ?_, ?_, ?_, ?_, ?_, ?_, ?_, ?_, ?_, ?_, ?_⟩ <;>
      norm_num [bucketPixels, oEqQ, oLe]

/-- Witness for C6 at the pt input of the claim. -/
theorem C6_witness :
    stripNumChars ("12pt") = "pt" ∧
    convertSizeToTailwind ("12pt") = bucketPixels (jsParseFloat ("12pt")) :=
  have h : stripNumChars ("12pt") = "pt" := rfl
  ⟨h, C6_sizeMapping_amended.1 ("12pt") h⟩

/-- A list without the separator splits to itself. -/
theorem jsSplitCharNoSep (sep : Char) (l : List Char) (h : ∀ c ∈ l, ¬(c = sep)) :
    jsSplitChar sep l = [l] := by
  induction l with
  | nil => rfl
  | cons c t ih =>
    have hc : (c == sep) = false := by simpa using h c (List.mem_cons_self c t)
    simp only [jsSplitChar, hc, Bool.false_eq_true, if_false]
    rw [ih (fun x hx => h x (List.mem_cons_of_mem c hx))]

/-- Splitting at the first separator after a separator-free prefix. -/
theorem jsSplitCharAppend (sep : Char) (a b : List Char)
    (h : ∀ c ∈ a, ¬(c = sep)) :
    jsSplitChar sep (a ++ sep :: b) = a :: jsSplitChar sep b := by
  induction a with
  | nil => simp [jsSplitChar]
  | cons c t ih =>
    have hc : (c == sep) = false := by simpa using h c (List.mem_cons_self c t)
    have ht := ih (fun x hx => h x (List.mem_cons_of_mem c hx))
    simp [jsSplitChar, hc, ht]

/-- Counterexample to claim C3: a declaration whose value contains a colon is
NOT stored with its full value; the parser splits on every colon and keeps
only the piece between the first and second, so a background-image url is
truncated at the colon of its scheme. -/
theorem C3_counterexample :
    lookupS (parseStyleAttr ("background-image: url(https://x)"))
        ("background-image") = some ("url(https") ∧
    ("url(https" : String) ≠ "url(https://x)" := by
  exact ⟨rfl, by decide⟩

/-- Claim C3 as amended: the parser splits the attribute on semicolons and
each segment on EVERY colon, keeping the trimmed piece before the first
colon as the property and the trimmed piece between the first and second
colons as the value — a value containing a colon is truncated there — and
skips segments whose property or value piece is empty after trimming. -/
theorem C3_styles_amended (p v1 v2 : String)
    (hp : ∀ c ∈ p.data, ¬(c = ';') ∧ ¬(c = ':'))
    (hv1 : ∀ c ∈ v1.data, ¬(c = ';') ∧ ¬(c = ':'))
    (hv2 : ∀ c ∈ v2.data, ¬(c = ';'))
    (hpne : (trimChars p.data).isEmpty = false)
    (hv1ne : (trimChars v1.data).isEmpty = false) :
    parseStyleAttr (p ++ ":" ++ v1 ++ ":" ++ v2) = [(jsTrim p, jsTrim v1)] := by
  have hcolon : ((":" : String)).data = [':'] := rfl
  have hdata : (p ++ ":" ++ v1 ++ ":" ++ v2).data =
      p.data ++ ':' :: (v1.data ++ ':' :: v2.data) := by
    simp [String.data_append, hcolon]
  have hnosemi : ∀ c ∈ p.data ++ ':' :: (v1.data ++ ':' :: v2.data), ¬(c = ';') := by
    intro c hc
    rcases List.mem_append.mp hc with h1 | h1
    · exact (hp c h1).1
    · rcases List.mem_cons.mp h1 with h2 | h2
      · subst h2; decide
      · rcases List.mem_append.mp h2 with h3 | h3
        · exact (hv1 c h3).1
        · rcases List.mem_cons.mp h3 with h4 | h4
          · subst h4; decide
          · exact hv2 c h4
  have hsplit : jsSplitChar ':' (p.data ++ ':' :: (v1.data ++ ':' :: v2.data)) =
      p.data :: v1.data :: jsSplitChar ':' v2.data := by
    rw [jsSplitCharAppend ':' p.data _ (fun c hc => (hp c hc).2)]
    rw [jsSplitCharAppend ':' v1.data _ (fun c hc => (hv1 c hc).2)]
  unfold parseStyleAttr
  rw [hdata, jsSplitCharNoSep ';' _ hnosemi]
  simp only [List.foldl, hsplit, List.map]
  simp only [hpne, hv1ne, Bool.not_false, Bool.and_self, if_true]
  rfl

/-- Witness for C3 at the truncated background-image declaration. -/
theorem C3_witness :
    (∀ c ∈ ("background-image" : String).data, ¬(c = ';') ∧ ¬(c = ':')) ∧
    parseStyleAttr
        (("background-image" : String) ++ ":" ++ " url(https" ++ ":" ++ "//x)") =
      [(jsTrim ("background-image"), jsTrim (" url(https"))] :=
  have h1 : ∀ c ∈ ("background-image" : String).data, ¬(c = ';') ∧ ¬(c = ':') := by
    decide
  have h2 : ∀ c ∈ (" url(https" : String).data, ¬(c = ';') ∧ ¬(c = ':') := by decide
  have h3 : ∀ c ∈ ("//x)" : String).data, ¬(c = ';') := by decide
  ⟨h1, C3_styles_amended ("background-image") (" url(https") ("//x)") h1 h2 h3
    (by decide) (by decide)⟩

/-- Claim C4 evaluated at the failing input: parsing a builder element whose
inline style sets background-color and text-align stores the declarations
under their literal CSS property names, while the mapper looks up camel-case
keys, so the default white background stands and no text alignment is set —
the parse-then-map composition never applies the style overrides. -/
theorem C4_style_overrides_dead :
    ((parseElementorElements c4Container 0).fst.map
        (fun e => lookupS e.styles ("background-color"))) = [some ("red")] ∧
    ((parseElementorElements c4Container 0).fst.map
        (fun e => lookupS e.styles ("text-align"))) = [some ("center")] ∧
    ((parseElementorElements c4Container 0).fst.map
        (fun e => lookupS e.styles ("backgroundColor"))) = [none] ∧
    ((parseElementorElements c4Container 0).fst.map
        (fun e => propClassName (mapElementorToReactBricks e none).props
            ("backgroundColor"))) = [some ("bg-white")] ∧
    ((parseElementorElements c4Container 0).fst.map
        (fun e => (lookupJ (mapElementorToReactBricks e none).props
            ("textAlign")).isSome)) = [false] :=
  ⟨rfl, rfl, rfl, rfl, rfl⟩

/-- Claim C2: a fetched document with no element carrying the builder root
marker class makes the parser fail with the not-found error — an error
distinguishable by construction from any fetch failure — and no Element
tree is produced (the error result carries no payload). -/
theorem C2_missing_root_notFound (doc : HtmlDocument)
    (h : noElementorCheck doc = true) :
    parseElementorPage (Except.ok doc) =
      Except.error (PipelineError.notFound notFoundMsg) ∧
    ∀ m : String,
      (Except.error (PipelineError.notFound notFoundMsg) :
          Except PipelineError ParsedElementorPage) ≠
        Except.error (PipelineError.fetch m) := by
  constructor
  · have hq : querySelectorClass doc.root ("elementor") = none := by
      unfold querySelectorClass
      rw [List.find?_eq_none]
      intro n hn
      unfold noElementorCheck at h
      have := (List.all_eq_true.mp h) n hn
      simpa using this
    simp [parseElementorPage, hq]
  · intro m
    simp

/-- Witness for C2 at a concrete document with no builder root. -/
theorem C2_witness :
    noElementorCheck c2Doc = true ∧
    parseElementorPage (Except.ok c2Doc) =
      Except.error (PipelineError.notFound notFoundMsg) :=
  have h : noElementorCheck c2Doc = true := rfl
  ⟨h, (C2_missing_root_notFound c2Doc h).1⟩

/-- An upsert under a different key preserves the absence of a key. -/
theorem lookupA_upsertA_none {A : Type} (l : List (String × A)) (k2 k : String)
    (v : A) (h : ¬(k2 = k)) (h2 : lookupA l k = none) :
    lookupA (upsertA l k2 v) k = none := by
  rw [lookupA_upsertA_ne l k k2 v h]
  exact h2

/-- A key absent from both branches of a conditional is absent from it. -/
theorem lookupA_ite_none {A : Type} (c : Prop) [Decidable c]
    (l1 l2 : List (String × A)) (k : String)
    (h1 : lookupA l1 k = none) (h2 : lookupA l2 k = none) :
    lookupA (if c then l1 else l2) k = none := by
  split
  · exact h1
  · exact h2

/-- Keys other than the three baseline ones are absent from the baseline
prop list of the settings mapper. -/
theorem lookupA_props0_none {A : Type} (a b c : A) (k : String)
    (h1 : ¬(("backgroundColor" : String) = k))
    (h2 : ¬(("paddingTop" : String) = k))
    (h3 : ¬(("paddingBottom" : String) = k)) :
    lookupA [(("backgroundColor"), a), (("paddingTop"), b), (("paddingBottom"), c)]
      k = none := by
  have e1 : (("backgroundColor" : String) == k) = false := by simpa using h1
  have e2 : (("paddingTop" : String) == k) = false := by simpa using h2
  have e3 : (("paddingBottom" : String) == k) = false := by simpa using h3
  simp [lookupA, List.find?, e1, e2, e3]

/-- A conditional upsert under a different key preserves the absence of a
key. -/
theorem lookupA_ite_upsert_none {A : Type} (c : Prop) [Decidable c]
    (l : List (String × A)) (k2 k : String) (v : A)
    (h : ¬(k2 = k)) (h2 : lookupA l k = none) :
    lookupA (if c then upsertA l k2 v else l) k = none := by
  split
  · exact lookupA_upsertA_none l k2 k v h h2
  · exact h2

/-- A key absent from the tail and different from the head is absent. -/
theorem lookupA_cons_none {A : Type} (s : String) (v : A)
    (l : List (String × A)) (k : String)
    (h : ¬(s = k)) (h2 : lookupA l k = none) :
    lookupA ((s, v) :: l) k = none := by
  have hb : (s == k) = false := by simpa using h
  simpa [lookupA, List.find?, hb] using h2

/-- Every key is absent from the empty record. -/
theorem lookupA_nil_none {A : Type} (k : String) :
    lookupA ([] : List (String × A)) k = none := rfl

set_option maxHeartbeats 1600000 in
/-- The settings mapper only ever writes the ten style-derived prop keys:
any other key is absent from its output. -/
theorem settingsProps_lookup_none (e : ElementorElement) (k : String)
    (h1 : ¬(("backgroundColor" : String) = k))
    (h2 : ¬(("paddingTop" : String) = k))
    (h3 : ¬(("paddingBottom" : String) = k))
    (h4 : ¬(("padding" : String) = k))
    (h5 : ¬(("paddingLeft" : String) = k))
    (h6 : ¬(("paddingRight" : String) = k))
    (h7 : ¬(("margin" : String) = k))
    (h8 : ¬(("borderTop" : String) = k))
    (h9 : ¬(("borderBottom" : String) = k))
    (h10 : ¬(("textAlign" : String) = k)) :
    lookupJ (mapElementorSettingsToProps e) k = none := by
  unfold lookupJ mapElementorSettingsToProps
  lift_lets
  intro props0 bg p1 pad pt q1 pb q2 pl q3 pr p2 mg p3 bt bd p4 bb p5 ta
  have h0 : lookupA props0 k = none :=
    lookupA_cons_none _ _ _ _ h1 (lookupA_cons_none _ _ _ _ h2
      (lookupA_cons_none _ _ _ _ h3 (lookupA_nil_none k)))
  have hp1 : lookupA p1 k = none := by
    apply lookupA_ite_upsert_none
    · exact h1
    · exact h0
  have hq1 : lookupA q1 k = none := by
    apply lookupA_ite_upsert_none
    · exact h2
    · exact hp1
  have hq2 : lookupA q2 k = none := by
    apply lookupA_ite_upsert_none
    · exact h3
    · exact hq1
  have hq3 : lookupA q3 k = none := by
    apply lookupA_ite_upsert_none
    · exact h5
    · exact hq2
  have hp2 : lookupA p2 k = none := by
    apply lookupA_ite_none
    · exact lookupA_upsertA_none _ _ _ _ h4 hp1
    · apply lookupA_ite_upsert_none
      · exact h6
      · exact hq3
  have hp3 : lookupA p3 k = none := by
    apply lookupA_ite_upsert_none
    · exact h7
    · exact hp2
  have hp4 : lookupA p4 k = none := by
    apply lookupA_ite_upsert_none
    · exact h8
    · exact hp3
  have hp5 : lookupA p5 k = none := by
    apply lookupA_ite_upsert_none
    · exact h9
    · exact hp4
  apply lookupA_ite_upsert_none
  · exact h10
  · exact hp5

/-- Shape of the video prop refinement over any prop list not already
carrying the four video keys: streaming with platform and id and no file,
or file with neither platform nor id (the file shape may or may not also
carry a videoFile). -/
theorem videoProps_shape (e : ElementorElement) (p : List (String × JsVal))
    (ht : lookupJ p ("type") = none) (hpf : lookupJ p ("platform") = none)
    (hvi : lookupJ p ("videoId") = none) (hvf : lookupJ p ("videoFile") = none) :
    (propStr (videoProps e p) ("type") = some ("streaming") ∧
       (lookupJ (videoProps e p) ("platform")).isSome = true ∧
       (lookupJ (videoProps e p) ("videoId")).isSome = true ∧
       lookupJ (videoProps e p) ("videoFile") = none) ∨
    (propStr (videoProps e p) ("type") = some ("file") ∧
       lookupJ (videoProps e p) ("platform") = none ∧
       lookupJ (videoProps e p) ("videoId") = none) := by
  simp only [lookupJ] at ht hpf hvi hvf
  rcases hc : e.content with _ | cont
  · right
    simp [videoProps, hc, propStr, lookupJ, upsertJ, lookupA_upsertA_self,
      lookupA_upsertA_ne, hpf, hvi]
  · by_cases hy : jsIncludes cont ("youtube") = true
    · by_cases hid : ((matchYoutubeId cont).getD "" != "") = true
      · left
        simp [videoProps, hc, hy, hid, propStr, lookupJ, upsertJ,
          lookupA_upsertA_self, lookupA_upsertA_ne, hvf]
      · right
        simp [videoProps, hc, hy, hid, propStr, lookupJ, upsertJ,
          lookupA_upsertA_self, lookupA_upsertA_ne, hpf, hvi]
    · by_cases hvm : jsIncludes cont ("vimeo") = true
      · rcases hm : matchVimeoId cont with _ | vid
        · right
          simp [videoProps, hc, hy, hvm, hm, propStr, lookupJ, upsertJ,
            lookupA_upsertA_self, lookupA_upsertA_ne, hpf, hvi]
        · by_cases hne : (vid != "") = true
          · left
            simp [videoProps, hc, hy, hvm, hm, hne, propStr, lookupJ, upsertJ,
              lookupA_upsertA_self, lookupA_upsertA_ne, hvf]
          · right
            simp [videoProps, hc, hy, hvm, hm, hne, propStr, lookupJ, upsertJ,
              lookupA_upsertA_self, lookupA_upsertA_ne, hpf, hvi]
      · by_cases h34 : jsIncludes cont ("<video") = true ∨
            isStrEq (lookupA e.settings ("video_type")) ("hosted") = true
        · right
          rcases hu : matchVideoFileUrl cont with _ | url
          · simp [videoProps, hc, hy, hvm, h34, hu, propStr, lookupJ, upsertJ,
              lookupA_upsertA_self, lookupA_upsertA_ne, hpf, hvi]
          · by_cases hul : (url != "") = true
            · simp [videoProps, hc, hy, hvm, h34, hu, hul, propStr, lookupJ,
                upsertJ, lookupA_upsertA_self, lookupA_upsertA_ne, hpf, hvi]
            · simp [videoProps, hc, hy, hvm, h34, hu, hul, propStr, lookupJ,
                upsertJ, lookupA_upsertA_self, lookupA_upsertA_ne, hpf, hvi]
        · right
          simp [videoProps, hc, hy, hvm, h34, propStr, lookupJ, upsertJ,
            lookupA_upsertA_self, lookupA_upsertA_ne, hpf, hvi]

/-- The props of a mapped video element are the video refinement of the
settings-derived props. -/
theorem propsMapVideoElem (eid etag : String) (esettings : List (String × JsVal))
    (echildren : List ElementorElement) (eclasses : List String)
    (estyles : List (String × String)) (econtent : Option String)
    (eattrs : List (String × String)) :
    (mapElementorToReactBricks
        (ElementorElement.mk eid ("video") etag esettings echildren eclasses
          estyles econtent eattrs) none).props =
      videoProps
        (ElementorElement.mk eid ("video") etag esettings echildren eclasses
          estyles econtent eattrs)
        (mapElementorSettingsToProps
          (ElementorElement.mk eid ("video") etag esettings echildren eclasses
            estyles econtent eattrs)) := by
  simp [mapElementorToReactBricks, mapVideo, apply_ite RBComponent.props]

/-- Claim C5, counterexample to the original statement: a video element
with no extractable content maps to `type = file` with no `videoFile` prop
set (and no platform or id), so the file shape is not always complete. -/
theorem C5_counterexample :
    propStr (mapElementorToReactBricks c5Element none).props ("type")
        = some ("file") ∧
    lookupJ (mapElementorToReactBricks c5Element none).props ("videoFile")
        = none ∧
    lookupJ (mapElementorToReactBricks c5Element none).props ("platform")
        = none ∧
    lookupJ (mapElementorToReactBricks c5Element none).props ("videoId")
        = none :=
  ⟨rfl, rfl, rfl, rfl⟩

/-- Claim C5 (amended): for every element of type video, the mapped props
carry a `type` of exactly one of the shapes — `streaming` together with a
platform and a videoId and no videoFile, or `file` with neither platform
nor videoId (a videoFile may or may not accompany the file shape) — and
never both. -/
theorem C5_video_type_shapes (e : ElementorElement) (h : e.type = "video") :
    ((propStr (mapElementorToReactBricks e none).props ("type")
          = some ("streaming") ∧
        (lookupJ (mapElementorToReactBricks e none).props ("platform")).isSome
          = true ∧
        (lookupJ (mapElementorToReactBricks e none).props ("videoId")).isSome
          = true ∧
        lookupJ (mapElementorToReactBricks e none).props ("videoFile") = none) ∨
      (propStr (mapElementorToReactBricks e none).props ("type")
          = some ("file") ∧
        lookupJ (mapElementorToReactBricks e none).props ("platform") = none ∧
        lookupJ (mapElementorToReactBricks e none).props ("videoId") = none)) ∧
    ¬(propStr (mapElementorToReactBricks e none).props ("type")
          = some ("streaming") ∧
      propStr (mapElementorToReactBricks e none).props ("type")
          = some ("file")) := by
  constructor
  · obtain ⟨eid, ety, etag, esettings, echildren, eclasses, estyles, econtent,
      eattrs⟩ := e
    simp only [ElementorElement.type] at h
    subst h
    rw [propsMapVideoElem]
    exact videoProps_shape _ _
      (settingsProps_lookup_none _ _ (by decide) (by decide) (by decide)
        (by decide) (by decide) (by decide) (by decide) (by decide) (by decide)
        (by decide))
      (settingsProps_lookup_none _ _ (by decide) (by decide) (by decide)
        (by decide) (by decide) (by decide) (by decide) (by decide) (by decide)
        (by decide))
      (settingsProps_lookup_none _ _ (by decide) (by decide) (by decide)
        (by decide) (by decide) (by decide) (by decide) (by decide) (by decide)
        (by decide))
      (settingsProps_lookup_none _ _ (by decide) (by decide) (by decide)
        (by decide) (by decide) (by decide) (by decide) (by decide) (by decide)
        (by decide))
  · rintro ⟨ha, hb⟩
    rw [ha] at hb
    simp at hb

/-- Witness for C5 at a concrete video element. -/
theorem C5_witness :
    c5Element.type = "video" ∧
    (((propStr (mapElementorToReactBricks c5Element none).props ("type")
          = some ("streaming") ∧
        (lookupJ (mapElementorToReactBricks c5Element none).props
            ("platform")).isSome = true ∧
        (lookupJ (mapElementorToReactBricks c5Element none).props
            ("videoId")).isSome = true ∧
        lookupJ (mapElementorToReactBricks c5Element none).props ("videoFile")
          = none) ∨
      (propStr (mapElementorToReactBricks c5Element none).props ("type")
          = some ("file") ∧
        lookupJ (mapElementorToReactBricks c5Element none).props ("platform")
          = none ∧
        lookupJ (mapElementorToReactBricks c5Element none).props ("videoId")
          = none)) ∧
    ¬(propStr (mapElementorToReactBricks c5Element none).props ("type")
          = some ("streaming") ∧
      propStr (mapElementorToReactBricks c5Element none).props ("type")
          = some ("file"))) :=
  ⟨rfl, C5_video_type_shapes c5Element rfl⟩

/-- The interface emission is the in-order concatenation of one line per
prop outside the known set. -/
theorem extraPropsInterfaceCode_eq (props : List (String × JsVal)) :
    extraPropsInterfaceCode props =
      String.join ((props.filter (fun p => !(knownPropsA.contains p.fst))).map
        (fun p => "  " ++ p.fst ++ "?: " ++ determinePropType p.snd ++ ";\n")) := by
  have key : ∀ (l : List (String × JsVal)) (a : String),
      l.foldl (fun code p => if knownPropsA.contains p.fst then code
        else code ++ "  " ++ p.fst ++ "?: " ++ determinePropType p.snd ++ ";\n") a =
      a ++ String.join ((l.filter (fun p => !(knownPropsA.contains p.fst))).map
        (fun p => "  " ++ p.fst ++ "?: " ++ determinePropType p.snd ++ ";\n")) := by
    intro l
    induction l with
    | nil => intro a; simp [String.join, String.append_empty]
    | cons x xs ih =>
      intro a
      by_cases hx : knownPropsA.contains x.fst = true
      · have hmem : x.fst ∈ knownPropsA := by simpa using hx
        simp only [List.foldl, hx, if_true]
        rw [ih a]
        simp [List.filter_cons, hmem]
      · have hx2 : knownPropsA.contains x.fst = false := by simpa using hx
        have hnm : ¬(x.fst ∈ knownPropsA) := by simpa using hx
        simp only [List.foldl, hx2, Bool.false_eq_true, if_false]
        rw [ih (a ++ "  " ++ x.fst ++ "?: " ++ determinePropType x.snd ++ ";\n")]
        simp [List.filter_cons, hnm, strJoinCons, String.append_assoc]
  have h := key props ""
  simpa [extraPropsInterfaceCode, String.empty_append] using h

/-- The destructuring emission is the in-order concatenation of one line
per prop outside the (larger) known set. -/
theorem extraPropsDestructureCode_eq (props : List (String × JsVal)) :
    extraPropsDestructureCode props =
      String.join ((props.filter (fun p => !(knownPropsB.contains p.fst))).map
        (fun p => "  " ++ p.fst ++ ",\n")) := by
  have key : ∀ (l : List (String × JsVal)) (a : String),
      l.foldl (fun code p => if knownPropsB.contains p.fst then code
        else code ++ "  " ++ p.fst ++ ",\n") a =
      a ++ String.join ((l.filter (fun p => !(knownPropsB.contains p.fst))).map
        (fun p => "  " ++ p.fst ++ ",\n")) := by
    intro l
    induction l with
    | nil => intro a; simp [String.join, String.append_empty]
    | cons x xs ih =>
      intro a
      by_cases hx : knownPropsB.contains x.fst = true
      · have hmem : x.fst ∈ knownPropsB := by simpa using hx
        simp only [List.foldl, hx, if_true]
        rw [ih a]
        simp [List.filter_cons, hmem]
      · have hx2 : knownPropsB.contains x.fst = false := by simpa using hx
        have hnm : ¬(x.fst ∈ knownPropsB) := by simpa using hx
        simp only [List.foldl, hx2, Bool.false_eq_true, if_false]
        rw [ih (a ++ "  " ++ x.fst ++ ",\n")]
        simp [List.filter_cons, hnm, strJoinCons, String.append_assoc]
  have h := key props ""
  simpa [extraPropsDestructureCode, String.empty_append] using h

/-- Claim C8: generation is a pure function of the component — two
invocations with fresh empty import accumulators yield identical strings —
and the extra props outside the fixed known sets are emitted as one line
each, in exactly the order the props list carries them. -/
theorem C8_generation_deterministic (c : RBComponent) :
    generateReactBricksComponent c [] = generateReactBricksComponent c [] ∧
    extraPropsInterfaceCode c.props =
      String.join ((c.props.filter (fun p => !(knownPropsA.contains p.fst))).map
        (fun p => "  " ++ p.fst ++ "?: " ++ determinePropType p.snd ++ ";\n")) ∧
    extraPropsDestructureCode c.props =
      String.join ((c.props.filter (fun p => !(knownPropsB.contains p.fst))).map
        (fun p => "  " ++ p.fst ++ ",\n")) :=
  ⟨rfl, extraPropsInterfaceCode_eq c.props, extraPropsDestructureCode_eq c.props⟩

/-- Appending on the right preserves a leading-prefix decomposition. -/
theorem exists_tail_step (x a s : String) (h : ∃ t, x = a ++ t) :
    ∃ t, (x ++ s) = a ++ t := by
  obtain ⟨t, ht⟩ := h
  exact ⟨t ++ s, by rw [ht, String.append_assoc]⟩

/-- The component function starts with the props-interface declaration of
the pascal-cased component name. -/
theorem genCompFun_interface_head (c : RBComponent) :
    ∃ t, generateComponentFunction c = interfaceDecl c.name ++ t := by
  refine ⟨"  backgroundColor?: any;\n  borderTop?: boolean;\n  borderBottom?: boolean;\n  paddingTop?: string;\n  paddingBottom?: string;\n" ++
    ((if famHeading c then "  title?: types.TextValue;\n  tag?: string;\n  extraBoldTitle?: boolean;\n" else "") ++
    ((if famText c then "  text?: types.TextValue;\n  textAlign?: string;\n" else "") ++
    ((if famImage c then "  imageSource?: types.IImageSource;\n  isRounded?: boolean;\n  hasShadow?: boolean;\n" else "") ++
    ((if famButton c then "  text?: string;\n  href?: string;\n  isTargetBlank?: boolean;\n  buttonColor?: string;\n  type?: \"solid\" | \"outline\" | \"link\";\n  isBigButton?: boolean;\n" else "") ++
    ((if famSection c then "  imageSide?: \"left\" | \"right\";\n  bigImage?: boolean;\n  mobileImageTop?: boolean;\n  textAlign?: \"left\" | \"center\" | \"right\";\n  verticalAlign?: \"top\" | \"center\" | \"bottom\";\n  mediaType?: \"image\" | \"multiple-images\" | \"video-file\" | \"video-streaming\";\n  buttons?: types.RepeaterItems;\n" else "") ++
    (extraPropsInterfaceCode c.props ++
    ("\x7d\n\n" ++
    ("const " ++
    (pascalCase c.name ++
    (": types.Brick<" ++
    (pascalCase c.name ++
    ("Props> = (\x7b\n" ++
    ("  backgroundColor,\n  borderTop,\n  borderBottom,\n  paddingTop,\n  paddingBottom,\n" ++
    ((if famHeading c then "  title,\n  tag = \"h2\",\n  extraBoldTitle = false,\n" else "") ++
    ((if famText c then "  text,\n  textAlign = \"left\",\n" else "") ++
    ((if famImage c then "  imageSource,\n  isRounded = false,\n  hasShadow = false,\n" else "") ++
    ((if famButton c then "  text = \"Button\",\n  href = \"#\",\n  isTargetBlank = false,\n  buttonColor,\n  type = \"solid\",\n  isBigButton = false,\n" else "") ++
    ((if famSection c then "  imageSide = \"right\",\n  bigImage = false,\n  mobileImageTop = false,\n  textAlign = \"left\",\n  verticalAlign = \"center\",\n  mediaType = \"image\",\n  buttons,\n" else "") ++
    (extraPropsDestructureCode c.props ++
    ("\x7d) => \x7b\n" ++
    (generateComponentBody c ++
    ("\x7d;\n\n")))))))))))))))))))))), ?_⟩
  simp only [generateComponentFunction, interfaceDecl, String.append_assoc]

/-- The schema text places the name literal right after its header. -/
theorem genSchema_name_decomp (c : RBComponent) :
    ∃ b, generateSchema c =
      (("\n" ++ pascalCase c.name ++ ".schema = \x7b\n") ++ "  ") ++
        (nameLiteral c.name ++ b) := by
  refine ⟨",\n" ++ (("  label: \x27" ++ c.label ++ "\x27,\n") ++
      (("  category: \x27" ++ c.category ++ "\x27,\n") ++
        ((if famSection c then sectionSchemaExtra
          else if famHeading c then headingSchemaExtra
          else if famText c then textSchemaExtra
          else if famImage c then imageSchemaExtra
          else if famButton c then buttonSchemaExtra
          else if famVideo c then videoSchemaExtra
          else "") ++ "\x7d;\n"))), ?_⟩
  have mm1 : ("  " : String) ++ "name: \x27" = "  name: \x27" := by decide
  have mm2 : ("\x27" : String) ++ ",\n" = "\x27,\n" := by decide
  have m1 : ∀ x : String, ("  " : String) ++ ("name: \x27" ++ x)
      = "  name: \x27" ++ x := by
    intro x
    rw [← String.append_assoc, mm1]
  have m2 : ∀ x : String, ("\x27" : String) ++ (",\n" ++ x)
      = "\x27,\n" ++ x := by
    intro x
    rw [← String.append_assoc, mm2]
  simp only [generateSchema, nameLiteral, String.append_assoc, m1, m2]

/-- Claim C9, counterexample to the original statement: for the column
component whose width prop value spells out its own schema name literal,
the generated text contains the literal twice (the schema line and the
interpolated prop value), not exactly once; the interface declaration does
occur exactly once here. -/
theorem C9_counterexample :
    countSubstr (generateReactBricksComponent c9Component [])
        (nameLiteral ("column-block")) = 2 ∧
    countSubstr (generateReactBricksComponent c9Component [])
        (interfaceDecl ("column-block")) = 1 :=
  ⟨rfl, rfl⟩

/-- Claim C9 (amended): for every component, the generated text does embed
the schema name literal of the component name at its fixed schema position,
and the pascal-cased props-interface declaration at the start of the
component function — but the generator cannot bound the total number of
textual occurrences, since interpolated prop and content text may repeat
the literal (see the counterexample). -/
theorem C9_name_and_interface_emitted (c : RBComponent) :
    (∃ a b : String,
        generateReactBricksComponent c [] = a ++ (nameLiteral c.name ++ b)) ∧
    (∃ a b : String,
        generateReactBricksComponent c [] = a ++ (interfaceDecl c.name ++ b)) := by
  constructor
  · obtain ⟨b, hb⟩ := genSchema_name_decomp c
    refine ⟨generateImportsStr (addRequiredImports c []) ++
        (generateComponentFunction c ++
          (("\n" ++ pascalCase c.name ++ ".schema = \x7b\n") ++ "  ")),
      b ++ ("\nexport default " ++ pascalCase c.name ++ ";\n"), ?_⟩
    simp only [generateReactBricksComponent]
    rw [hb]
    simp only [String.append_assoc]
  · obtain ⟨t, ht⟩ := genCompFun_interface_head c
    refine ⟨generateImportsStr (addRequiredImports c []),
      t ++ (generateSchema c ++
        ("\nexport default " ++ pascalCase c.name ++ ";\n")), ?_⟩
    simp only [generateReactBricksComponent]
    rw [ht]
    simp only [String.append_assoc]
